import Mathlib

/-!
Shallow embedding of the terraspiel simulation engine (TypeScript sources
under src/) and proofs about the claims of its specification.

Conventions of the embedding:
* JS numbers are modelled as rationals.
* Math.random() is modelled as a stream of rationals, a function from a
  draw index to a rational; the index of the next draw is threaded through
  every definition exactly in source order.
* Grids are total functions from integer coordinates, applied as grid y x,
  mirroring the source indexing grid[y][x]; width and height bound the
  valid region and all bounds checks of the source are reproduced.
* External routines of the JS standard library whose exact values the
  source does not define (cos, sin, sqrt, PI, the engine-defined sort with
  a random comparator, and the colour variation helper) are parameters of
  the embedding, collected in the Ext structure.
-/

namespace Terraspiel

/-- Element names, from src/types/elements.ts (plus MAGMA, produced by the
fire transformation table and registered in the behaviour map). -/
inductive ElementName
  | EMPTY | SOIL | WATER | MUD | FERTILE_SOIL | PEAT | CLOUD | CLAY | FIRE | SAND
  | STONE | BASALT | OBSIDIAN | SEED | PLANT | OIL | CRYSTAL | ELECTRUM | RUBY
  | SAPPHIRE | AMETHYST | GARNET | EMERALD | ETHER | THUNDER | MAGMA
  deriving DecidableEq, Repr

/-- Last-move directions, from src/types/elements.ts. -/
inductive MoveDirection
  | NONE | DOWN | DOWN_LEFT | DOWN_RIGHT | LEFT | RIGHT
  deriving DecidableEq, Repr

/-- Plant modes, from the plantMode field of Cell. -/
inductive PlantMode
  | stem | ground_cover | leaf | flower | withered
  deriving DecidableEq, Repr

/-- A grid cell: a type plus the optional per-kind scalar bag, from
src/types/elements.ts. -/
structure Cell where
  type : ElementName
  rainCounter : Option ℚ := none
  chargeCounter : Option ℚ := none
  decayCounter : Option ℚ := none
  rainThreshold : Option ℚ := none
  chargeThreshold : Option ℚ := none
  counter : Option ℚ := none
  burningProgress : Option ℚ := none
  plantMode : Option PlantMode := none
  oilCounter : Option ℚ := none
  life : Option ℚ := none
  etherStorage : Option ℚ := none
  deriving DecidableEq, Repr

/-- The fluidity record of an element definition. -/
structure Fluidity where
  resistance : ℚ
  spread : ℚ
  deriving DecidableEq, Repr

/-- The state field of an element definition. -/
inductive ElemState
  | solid | liquid
  deriving DecidableEq, Repr

/-- Part colours of compound elements (the accesses used by the sources:
withered, leaf, flower). -/
structure PartColors where
  withered : String
  leaf : String
  flower : String
  deriving DecidableEq, Repr

/-- An element definition, from src/types/elements.ts. -/
structure Element where
  name : ElementName
  color : String
  density : ℚ
  state : Option ElemState := none
  isStatic : Option Bool := none
  fluidity : Option Fluidity := none
  hasColorVariation : Option Bool := none
  isFlammable : Option Bool := none
  partColors : Option PartColors := none
  deriving DecidableEq, Repr

/-- The element registry, loaded from JSON at runtime: an association list
of definitions keyed by name.  An empty list models the not-yet-loaded
state checked by Object.keys(elements).length === 0. -/
abbrev Elements := List (ElementName × Element)

/-- Registry lookup, the dictionary access elements[name]. -/
def findElem : Elements → ElementName → Option Element
  | [], _ => none
  | (n, e) :: rest, t => if n = t then some e else findElem rest t

/-- The colour of the EMPTY element, the access elements.EMPTY.color. -/
def emptyColor (els : Elements) : String :=
  ((findElem els ElementName.EMPTY).map Element.color).getD ""

/-- A free particle, from src/types/elements.ts. -/
structure Particle where
  id : ℤ
  px : ℚ
  py : ℚ
  vx : ℚ
  vy : ℚ
  type : ElementName
  life : ℚ
  deriving DecidableEq, Repr

/-- A Math.random() stream: draw index to value.  Theorems that need the
JS guarantee add the hypothesis that every draw lies in the interval
from 0 inclusive to 1 exclusive. -/
abbrev Rand := ℕ → ℚ

/-- The JS range guarantee for Math.random(). -/
def RandRange (r : Rand) : Prop := ∀ n, 0 ≤ r n ∧ r n < 1

/-- External routines whose values the source does not define: the JS Math
library functions cos, sin, sqrt and the constant PI (doubles), the
engine-defined Array.prototype.sort with a random comparator applied to
the direction list of the consumes search (given the current draw index),
and the colour variation helper varyColor of src/utils/colors.ts (base hex
colour and one random draw to a hex colour). -/
structure Ext where
  cosF : ℚ → ℚ
  sinF : ℚ → ℚ
  sqrtF : ℚ → ℚ
  piF : ℚ
  sortDirs : ℕ → List ℤ
  varyColorF : String → ℚ → String

/-- The colour variation table precomputed by the store, the accesses
colorVariations.get(key); a missing key is modelled by the empty list. -/
abbrev ColorVars := String → List String

/-- A grid of cells, applied as grid y x like the source grid[y][x]. -/
abbrev Grid := ℤ → ℤ → Cell

/-- Pointwise update of a cell grid. -/
def setG (g : Grid) (y x : ℤ) (c : Cell) : Grid :=
  fun y2 x2 => if y2 = y ∧ x2 = x then c else g y2 x2

/-- Pointwise update of a direction grid. -/
def setD (g : ℤ → ℤ → MoveDirection) (y x : ℤ) (d : MoveDirection) :
    ℤ → ℤ → MoveDirection :=
  fun y2 x2 => if y2 = y ∧ x2 = x then d else g y2 x2

/-- Pointwise update of a colour grid. -/
def setS (g : ℤ → ℤ → String) (y x : ℤ) (s : String) : ℤ → ℤ → String :=
  fun y2 x2 => if y2 = y ∧ x2 = x then s else g y2 x2

/-- Pointwise update of a boolean grid. -/
def setB (g : ℤ → ℤ → Bool) (y x : ℤ) (b : Bool) : ℤ → ℤ → Bool :=
  fun y2 x2 => if y2 = y ∧ x2 = x then b else g y2 x2

/-- The read-only half of the behaviour context of physics.ts. -/
structure RCtx where
  grid : Grid
  lastMoveGrid : ℤ → ℤ → MoveDirection
  colorGrid : ℤ → ℤ → String
  width : ℤ
  height : ℤ
  scanRight : Bool

/-- The writable half of the behaviour context: write buffers and the
moved bitmap. -/
structure WCtx where
  newGrid : Grid
  newLastMoveGrid : ℤ → ℤ → MoveDirection
  newColorGrid : ℤ → ℤ → String
  moved : ℤ → ℤ → Bool

def WCtx.putCell (w : WCtx) (y x : ℤ) (c : Cell) : WCtx :=
  { w with newGrid := setG w.newGrid y x c }

def WCtx.putColor (w : WCtx) (y x : ℤ) (s : String) : WCtx :=
  { w with newColorGrid := setS w.newColorGrid y x s }

def WCtx.putLast (w : WCtx) (y x : ℤ) (d : MoveDirection) : WCtx :=
  { w with newLastMoveGrid := setD w.newLastMoveGrid y x d }

def WCtx.putMoved (w : WCtx) (y x : ℤ) : WCtx :=
  { w with moved := setB w.moved y x true }

/-- The read-to-write copy used when a behaviour does nothing: grid,
colour and last-move at the own coordinate
(granularBehavior.ts lines 199 to 204 and the two guarded copies). -/
def copyThrough (r : RCtx) (w : WCtx) (x y : ℤ) : WCtx :=
  ((w.putCell y x (r.grid y x)).putColor y x (r.colorGrid y x)).putLast y x
    (r.lastMoveGrid y x)

/-- The swap test of granularBehavior.ts: the target element definition
exists, declares fluidity, has strictly lower density than the moving
element and is in the liquid state. -/
def swapOK (els : Elements) (selfDef : Element) (target : Cell) : Prop :=
  match findElem els target.type with
  | none => False
  | some td => td.fluidity.isSome = true ∧ selfDef.density > td.density ∧
      td.state = some ElemState.liquid

instance (els : Elements) (selfDef : Element) (target : Cell) :
    Decidable (swapOK els selfDef target) := by
  unfold swapOK
  cases findElem els target.type with
  | none => exact isFalse (fun h => h)
  | some td => exact inferInstance

namespace Granular

/-- Step 1 of handleGranular (granularBehavior.ts lines 79 to 103): fall
straight down into EMPTY, or swap with a lower-density liquid below.
Returns the updated context when a move happened.  No random draw. -/
def down (els : Elements) (r : RCtx) (w : WCtx) (x y : ℤ) (cur : Cell)
    (myColor : String) (selfDef : Element) : Option WCtx :=
  if y + 1 < r.height ∧ w.moved (y + 1) x = false then
    let target := r.grid (y + 1) x
    if target.type = ElementName.EMPTY then
      some (((((w.putCell y x { type := ElementName.EMPTY }).putColor y x
        (emptyColor els)).putCell (y + 1) x cur).putColor (y + 1) x
        myColor).putMoved y x |>.putMoved (y + 1) x |>.putLast (y + 1) x
        MoveDirection.NONE)
    else if swapOK els selfDef target then
      some ((((((w.putCell y x target).putColor y x
        (r.colorGrid (y + 1) x)).putCell (y + 1) x cur).putColor (y + 1) x
        myColor).putMoved y x |>.putMoved (y + 1) x).putLast y x
        (r.lastMoveGrid (y + 1) x) |>.putLast (y + 1) x MoveDirection.NONE)
    else none
  else none

/-- One diagonal attempt of step 2 (granularBehavior.ts lines 111 to 139):
bounds and moved checks short-circuit before the resistance draw. -/
def diagAttempt (els : Elements) (r : RCtx) (w : WCtx) (x y dx : ℤ)
    (cur : Cell) (myColor : String) (selfDef : Element) (resistance : ℚ)
    (rnd : Rand) (k : ℕ) : Option WCtx × ℕ :=
  let tx := x + dx
  if 0 ≤ tx ∧ tx < r.width ∧ w.moved (y + 1) tx = false then
    if rnd k > resistance then
      let target := r.grid (y + 1) tx
      if target.type = ElementName.EMPTY then
        (some (((((w.putCell y x { type := ElementName.EMPTY }).putColor y x
          (emptyColor els)).putCell (y + 1) tx cur).putColor (y + 1) tx
          myColor).putMoved y x |>.putMoved (y + 1) tx |>.putLast (y + 1) tx
          (if dx = -1 then MoveDirection.LEFT else MoveDirection.RIGHT)),
         k + 1)
      else if swapOK els selfDef target then
        (some ((((((w.putCell y x target).putColor y x
          (r.colorGrid (y + 1) tx)).putCell (y + 1) tx cur).putColor (y + 1)
          tx myColor).putMoved y x |>.putMoved (y + 1) tx).putLast y x
          (r.lastMoveGrid (y + 1) tx) |>.putLast (y + 1) tx
          (if dx = -1 then MoveDirection.LEFT else MoveDirection.RIGHT)),
         k + 1)
      else (none, k + 1)
    else (none, k + 1)
  else (none, k)

/-- Step 2 of handleGranular: preferred direction from inertia, then the
opposite. -/
def diag (els : Elements) (r : RCtx) (w : WCtx) (x y : ℤ) (cur : Cell)
    (myColor : String) (selfDef : Element) (resistance : ℚ) (rnd : Rand)
    (k : ℕ) : Option WCtx × ℕ :=
  if y + 1 < r.height then
    let lastMove := r.lastMoveGrid y x
    let initialDir : ℤ := if r.scanRight then 1 else -1
    let dir : ℤ :=
      if lastMove = MoveDirection.LEFT then -1
      else if lastMove = MoveDirection.RIGHT then 1 else initialDir
    match diagAttempt els r w x y dir cur myColor selfDef resistance rnd k with
    | (some w2, k2) => (some w2, k2)
    | (none, k2) =>
        diagAttempt els r w x y (-dir) cur myColor selfDef resistance rnd k2
  else (none, k)

/-- The consecutive-empty count below a column, depth at most 3, stopping
at the first non-empty cell or the bottom (lines 151 to 158). -/
def openSpaces (r : RCtx) (tx y : ℤ) : ℕ :=
  if y + 1 < r.height ∧ (r.grid (y + 1) tx).type = ElementName.EMPTY then
    if y + 2 < r.height ∧ (r.grid (y + 2) tx).type = ElementName.EMPTY then
      if y + 3 < r.height ∧ (r.grid (y + 3) tx).type = ElementName.EMPTY then
        3
      else 2
    else 1
  else 0

/-- The sideways move write of step 3. -/
def sideMove (els : Elements) (w : WCtx) (x y tx : ℤ) (cur : Cell)
    (myColor : String) (d : MoveDirection) : WCtx :=
  ((((w.putCell y x { type := ElementName.EMPTY }).putColor y x
    (emptyColor els)).putCell y tx cur).putColor y tx myColor).putMoved y x
    |>.putMoved y tx |>.putLast y tx d

/-- Step 3 of handleGranular (lines 144 to 197): sideways spreading with
open-space balancing. -/
def side (els : Elements) (r : RCtx) (w : WCtx) (x y : ℤ) (cur : Cell)
    (myColor : String) (spread : ℚ) (rnd : Rand) (k : ℕ) :
    Option WCtx × ℕ :=
  if rnd k < spread then
    let leftX := x - 1
    let rightX := x + 1
    let canGoLeft := 0 ≤ leftX ∧ (r.grid y leftX).type = ElementName.EMPTY ∧
      w.moved y leftX = false
    let canGoRight := rightX < r.width ∧
      (r.grid y rightX).type = ElementName.EMPTY ∧ w.moved y rightX = false
    if canGoLeft ∧ canGoRight then
      let l := openSpaces r leftX y
      let rr := openSpaces r rightX y
      let moveDir : ℤ :=
        if l > rr then -1 else if rr > l then 1
        else if r.scanRight then 1 else -1
      (some (sideMove els w x y (x + moveDir) cur myColor
        (if moveDir = -1 then MoveDirection.LEFT else MoveDirection.RIGHT)),
       k + 1)
    else if canGoLeft then
      (some (sideMove els w x y leftX cur myColor MoveDirection.LEFT), k + 1)
    else if canGoRight then
      (some (sideMove els w x y rightX cur myColor MoveDirection.RIGHT),
       k + 1)
    else (none, k + 1)
  else (none, k + 1)

/-- Steps 1 to 3 and the final copy of handleGranular, entered after the
guards and the settled fast path. -/
def main (els : Elements) (r : RCtx) (w : WCtx) (x y : ℤ)
    (isChained : Bool) (cur : Cell) (myColor : String) (selfDef : Element)
    (resistance spread : ℚ) (rnd : Rand) (k : ℕ) : WCtx × ℕ :=
  match down els r w x y cur myColor selfDef with
  | some w1 => (w1, k)
  | none =>
      match diag els r w x y cur myColor selfDef resistance rnd k with
      | (some w2, k2) => (w2, k2)
      | (none, k2) =>
          match side els r w x y cur myColor spread rnd k2 with
          | (some w3, k3) => (w3, k3)
          | (none, k3) =>
              (if isChained then w else copyThrough r w x y, k3)

end Granular

/-- handleGranular of src/game/behaviors/granularBehavior.ts. -/
def handleGranular (els : Elements) (r : RCtx) (w : WCtx) (x y : ℤ)
    (isChained : Bool) (rnd : Rand) (k : ℕ) : WCtx × ℕ :=
  if els = [] then (w, k)
  else
    let cur := r.grid y x
    match findElem els cur.type with
    | none => (if isChained then w else copyThrough r w x y, k)
    | some selfDef =>
        match selfDef.fluidity with
        | none => (if isChained then w else copyThrough r w x y, k)
        | some fl =>
            let myColor := r.colorGrid y x
            -- settled fast path (lines 55 to 76)
            if y + 1 < r.height ∧
                (r.grid (y + 1) x).type ≠ ElementName.EMPTY ∧
                ¬ swapOK els selfDef (r.grid (y + 1) x) ∧
                selfDef.state ≠ some ElemState.liquid then
              if rnd k > 1 / 10 then
                (if isChained then w else copyThrough r w x y, k + 1)
              else
                Granular.main els r w x y isChained cur myColor selfDef
                  fl.resistance fl.spread rnd (k + 1)
            else
              Granular.main els r w x y isChained cur myColor selfDef
                fl.resistance fl.spread rnd k

/-- handleCrystal of src/game/behaviors/crystalBehavior.ts: with
probability 0.001 emit an ETHER particle in a uniform random direction
with speed 0.3 and life 150.  The function touches no grid. -/
def handleCrystal (ext : Ext) (x y : ℤ) (rnd : Rand) (k : ℕ) :
    Option Particle × ℕ :=
  if rnd k < 1 / 1000 then
    let angle := rnd (k + 1) * 2 * ext.piF
    (some { id := -1
            px := (x : ℚ) + 1 / 2
            py := (y : ℚ) + 1 / 2
            vx := ext.cosF angle * (3 / 10)
            vy := ext.sinF angle * (3 / 10)
            type := ElementName.ETHER
            life := 150 }, k + 2)
  else (none, k + 1)

/-- handleCrystalBehavior of src/game/physics.ts lines 48 to 63: run the
crystal logic, stop if the write-buffer cell reads EMPTY, otherwise chain
handleGranular with isChained set. -/
def handleCrystalBehavior (ext : Ext) (els : Elements) (r : RCtx)
    (w : WCtx) (x y : ℤ) (rnd : Rand) (k : ℕ) :
    WCtx × Option Particle × ℕ :=
  let (p, k1) := handleCrystal ext x y rnd k
  if (w.newGrid y x).type = ElementName.EMPTY then (w, p, k1)
  else
    let (w2, k2) := handleGranular els r w x y true rnd k1
    (w2, p, k2)

/-- handleOil of src/game/behaviors/oilBehavior.ts: spontaneous combustion
with probability 0.001, consuming the cell and spawning a FIRE particle
with life in the interval from 40 to 59. -/
def handleOil (els : Elements) (w : WCtx) (x y : ℤ) (rnd : Rand) (k : ℕ) :
    WCtx × Option Particle × ℕ :=
  if els = [] then (w, none, k)
  else if rnd k < 1 / 1000 then
    let w1 := w.putCell y x { type := ElementName.EMPTY }
    let p : Particle :=
      { id := -1
        type := ElementName.FIRE
        px := (x : ℚ) + 1 / 2
        py := (y : ℚ) + 1 / 2
        vx := (rnd (k + 1) - 1 / 2) * (3 / 2)
        vy := (rnd (k + 2) - 1 / 2) * (3 / 2) - 1
        life := ((⌊rnd (k + 3) * 20⌋ : ℤ) : ℚ) + 40 }
    (w1, some p, k + 4)
  else (w, none, k + 1)

/-- handleOilBehavior of src/game/physics.ts lines 36 to 46. -/
def handleOilBehavior (els : Elements) (r : RCtx) (w : WCtx) (x y : ℤ)
    (rnd : Rand) (k : ℕ) : WCtx × Option Particle × ℕ :=
  let (w1, p, k1) := handleOil els w x y rnd k
  match p with
  | some q => (w1, some q, k1)
  | none =>
      if w1.moved y x = false then
        let (w2, k2) := handleGranular els r w1 x y false rnd k1
        (w2, none, k2)
      else (w1, none, k1)

/-- handlePlant (the plant movement behaviour imported by physics.ts):
withered plants fall as granular; a living plant falls when the cell below
is EMPTY and otherwise stays in place. -/
def handlePlant (els : Elements) (r : RCtx) (w : WCtx) (x y : ℤ)
    (rnd : Rand) (k : ℕ) : WCtx × ℕ :=
  let cell := r.grid y x
  if cell.plantMode = some PlantMode.withered then
    handleGranular els r w x y false rnd k
  else if y + 1 < r.height ∧ (r.grid (y + 1) x).type = ElementName.EMPTY then
    handleGranular els r w x y false rnd k
  else
    ((w.putCell y x cell).putColor y x (r.colorGrid y x), k)

/-- The eight Moore offsets as pairs, outer index first, in the scan order
of the source loops. -/
def mooreOffsets : List (ℤ × ℤ) :=
  [(-1, -1), (-1, 0), (-1, 1), (0, -1), (0, 1), (1, -1), (1, 0), (1, 1)]

namespace Cloud

/-- The cloud cell written back by handleCloud: the current cell with type
CLOUD and the five counters replaced. -/
def cloudCell (c : Cell) (rc cc dc rt ct : ℚ) : Cell :=
  { c with type := ElementName.CLOUD
           rainCounter := some rc
           chargeCounter := some cc
           decayCounter := some dc
           rainThreshold := some rt
           chargeThreshold := some ct }

/-- The move-write pattern shared by the three cloud movement branches:
place the cloud at the target, put WATER (on a swap) or EMPTY at the
origin. -/
def moveTo (els : Elements) (r : RCtx) (w : WCtx) (x y ty tx : ℤ)
    (cc : Cell) (color : String) : WCtx :=
  let target := r.grid ty tx
  let w1 := ((w.putCell ty tx cc).putColor ty tx color).putMoved ty tx
  let w2 :=
    if target.type = ElementName.WATER then
      (w1.putCell y x target).putColor y x (r.colorGrid ty tx)
    else
      (w1.putCell y x { type := ElementName.EMPTY }).putColor y x
        (emptyColor els)
  w2.putMoved y x

/-- One target attempt of the diagonal and sideways loops: bounds check on
the column, then EMPTY-or-WATER and not-moved on the target. -/
def tryTo (els : Elements) (r : RCtx) (w : WCtx) (x y ty tx : ℤ)
    (cc : Cell) (color : String) : Option WCtx :=
  if 0 ≤ tx ∧ tx < r.width ∧
      ((r.grid ty tx).type = ElementName.EMPTY ∨
        (r.grid ty tx).type = ElementName.WATER) ∧
      w.moved ty tx = false then
    some (moveTo els r w x y ty tx cc color)
  else none

end Cloud

/-- handleCloud of src/game/behaviors/cloudBehavior.ts. -/
def handleCloud (els : Elements) (cv : ColorVars) (r : RCtx) (w : WCtx)
    (x y : ℤ) (rnd : Rand) (k : ℕ) : WCtx × Option Particle × ℕ :=
  if els = [] then (w, none, k)
  else
    let cell := r.grid y x
    let color := r.colorGrid y x
    let rc0 := cell.rainCounter.getD 0
    let cc0 := cell.chargeCounter.getD 0
    let dc0 := cell.decayCounter.getD 0
    -- randomised threshold initialisation
    let (rt, k1) : ℚ × ℕ :=
      match cell.rainThreshold with
      | some v => (v, k)
      | none => (100 + ((⌊rnd k * 40⌋ : ℤ) : ℚ) - 20, k + 1)
    let (ct, k2) : ℚ × ℕ :=
      match cell.chargeThreshold with
      | some v => (v, k1)
      | none => (800 + ((⌊rnd k1 * 400⌋ : ℤ) : ℚ) - 200, k1 + 1)
    -- cloud interaction: any Moore neighbour is CLOUD
    let touching : Bool := mooreOffsets.any fun off =>
      decide (0 ≤ y + off.1 ∧ y + off.1 < r.height ∧ 0 ≤ x + off.2 ∧
        x + off.2 < r.width ∧
        (r.grid (y + off.1) (x + off.2)).type = ElementName.CLOUD)
    let rc1 := if touching then rc0 + 1 else rc0
    let cc1 := if touching then cc0 + 1 else cc0
    -- decay
    let dc1 := if rnd k2 < 1 / 50 then dc0 + 1 else dc0
    let k3 := k2 + 1
    if dc1 ≥ 100 then
      (((w.putCell y x { type := ElementName.EMPTY }).putColor y x
        (emptyColor els)).putMoved y x, none, k3)
    else
      -- rain
      let rc2 := if rnd k3 < 1 / 50 then rc1 + 1 else rc1
      let k4 := k3 + 1
      let (w1, rc3, dc2, k5) : WCtx × ℚ × ℚ × ℕ :=
        if rc2 ≥ rt ∧ y + 1 < r.height ∧
            (r.grid (y + 1) x).type = ElementName.EMPTY ∧
            w.moved (y + 1) x = false then
          let wa := w.putCell (y + 1) x { type := ElementName.WATER }
          let vars := cv "WATER"
          let (wb, k5) : WCtx × ℕ :=
            if vars ≠ [] then
              (wa.putColor (y + 1) x
                (vars.getD (⌊rnd k4 * vars.length⌋).toNat ""), k4 + 1)
            else
              (wa.putColor (y + 1) x
                (((findElem els ElementName.WATER).map Element.color).getD ""),
               k4)
          (wb.putMoved (y + 1) x, 0, dc1 + 10, k5)
        else (w, rc2, dc1, k4)
      -- charge
      let cc2 := if rnd k5 < 1 / 20 then cc1 + 1 else cc1
      let k6 := k5 + 1
      let (particle, cc3, k7) : Option Particle × ℚ × ℕ :=
        if cc2 ≥ ct then
          (some { id := -1
                  px := (x : ℚ) + 1 / 2
                  py := (y : ℚ) + 1 / 2
                  vx := rnd k6 - 1 / 2
                  vy := rnd (k6 + 1) * 2 + 2
                  type := ElementName.THUNDER
                  life := 60 }, 0, k6 + 2)
        else (none, cc2, k6)
      -- movement
      let currentCell :=
        if (w1.newGrid y x).type ≠ ElementName.EMPTY then w1.newGrid y x
        else r.grid y x
      let cc := Cloud.cloudCell currentCell rc3 cc3 dc2 rt ct
      -- 1: straight up
      let (w2, moved1, k8) : WCtx × Bool × ℕ :=
        if 0 < y then
          if rnd k7 < 7 / 10 then
            let target := r.grid (y - 1) x
            if (target.type = ElementName.EMPTY ∨
                target.type = ElementName.WATER) ∧
                w1.moved (y - 1) x = false then
              (Cloud.moveTo els r w1 x y (y - 1) x cc color, true, k7 + 1)
            else (w1, false, k7 + 1)
          else (w1, false, k7 + 1)
        else (w1, false, k7)
      -- 2: diagonally up
      let (w3, moved2, k9) : WCtx × Bool × ℕ :=
        if 0 < y ∧ moved1 = false then
          if rnd k8 < 1 / 2 then
            let flip := rnd (k8 + 1) > 1 / 2
            let d1 : ℤ := if flip then 1 else -1
            let d2 : ℤ := -d1
            match Cloud.tryTo els r w2 x y (y - 1) (x + d1) cc color with
            | some wz => (wz, true, k8 + 2)
            | none =>
                match Cloud.tryTo els r w2 x y (y - 1) (x + d2) cc color with
                | some wz => (wz, true, k8 + 2)
                | none => (w2, false, k8 + 2)
          else (w2, false, k8 + 1)
        else (w2, moved1, k8)
      -- 3: sideways
      let (w4, moved3, k10) : WCtx × Bool × ℕ :=
        if moved2 = false then
          if rnd k9 < 1 / 2 then
            let flip := rnd (k9 + 1) > 1 / 2
            let d1 : ℤ := if flip then 1 else -1
            let d2 : ℤ := -d1
            match Cloud.tryTo els r w3 x y y (x + d1) cc color with
            | some wz => (wz, true, k9 + 2)
            | none =>
                match Cloud.tryTo els r w3 x y y (x + d2) cc color with
                | some wz => (wz, true, k9 + 2)
                | none => (w3, false, k9 + 2)
          else (w3, false, k9 + 1)
        else (w3, moved2, k9)
      let w5 :=
        if moved3 = false then (w4.putCell y x cc).putColor y x color
        else w4
      (w5, particle, k10)

/-- The behaviour dispatch table of src/game/physics.ts lines 66 to 89. -/
inductive BKind
  | granular | cloud | oilK | plantK | crystalK

open ElementName in
/-- Which behaviour handles each element, mirroring the behaviors map of
physics.ts; elements without an entry are copied unchanged. -/
def behaviorsMap : ElementName → Option BKind
  | SOIL => some .granular
  | FERTILE_SOIL => some .granular
  | PEAT => some .granular
  | WATER => some .granular
  | MUD => some .granular
  | CLOUD => some .cloud
  | CLAY => some .granular
  | SAND => some .granular
  | STONE => some .granular
  | BASALT => some .granular
  | OBSIDIAN => some .granular
  | SEED => some .granular
  | OIL => some .oilK
  | PLANT => some .plantK
  | CRYSTAL => some .crystalK
  | ELECTRUM => some .granular
  | RUBY => some .granular
  | SAPPHIRE => some .granular
  | AMETHYST => some .granular
  | GARNET => some .granular
  | EMERALD => some .granular
  | MAGMA => some .granular
  | _ => none

/-- One cell of the movement pass of simulateWorld (physics.ts lines 128
to 166): skip moved cells, write EMPTY through, dispatch to the behaviour
or copy unchanged. -/
def moveCell (ext : Ext) (els : Elements) (cv : ColorVars) (r : RCtx)
    (rnd : Rand) (acc : WCtx × List Particle × ℕ) (x y : ℤ) :
    WCtx × List Particle × ℕ :=
  let (w, ps, k) := acc
  if w.moved y x then acc
  else
    let e := (r.grid y x).type
    if e = ElementName.EMPTY then
      ((w.putCell y x { type := ElementName.EMPTY }).putColor y x
        (emptyColor els), ps, k)
    else
      match behaviorsMap e with
      | some .granular =>
          let (w2, k2) := handleGranular els r w x y false rnd k
          (w2, ps, k2)
      | some .cloud =>
          let (w2, p, k2) := handleCloud els cv r w x y rnd k
          (w2, ps ++ p.toList, k2)
      | some .oilK =>
          let (w2, p, k2) := handleOilBehavior els r w x y rnd k
          (w2, ps ++ p.toList, k2)
      | some .plantK =>
          let (w2, k2) := handlePlant els r w x y rnd k
          (w2, ps, k2)
      | some .crystalK =>
          let (w2, p, k2) := handleCrystalBehavior ext els r w x y rnd k
          (w2, ps ++ p.toList, k2)
      | none =>
          ((w.putCell y x (r.grid y x)).putColor y x (r.colorGrid y x),
           ps, k)

/-- Pass 1 of simulateWorld: rows bottom to top, columns in scan order,
over a fresh moved bitmap. -/
def movementPass (ext : Ext) (els : Elements) (cv : ColorVars) (r : RCtx)
    (stale : WCtx) (rnd : Rand) (k : ℕ) : WCtx × List Particle × ℕ :=
  let w0 : WCtx := { stale with moved := fun _ _ => false }
  (List.range r.height.toNat).reverse.foldl
    (fun acc yn =>
      (List.range r.width.toNat).foldl
        (fun acc2 i =>
          let x : ℤ := if r.scanRight then (i : ℤ) else r.width - 1 - (i : ℤ)
          moveCell ext els cv r rnd acc2 x (yn : ℤ))
        acc)
    (w0, ([] : List Particle), k)

/-! ## Transformation engine -/

/-- The value compared by a surroundingAttribute condition. -/
inductive AttrValue
  | ofBool (b : Bool)
  | ofString (s : String)
  | ofQ (q : ℚ)
  deriving DecidableEq, Repr

/-- The dynamic attribute access elementDef[attribute] for the element
definition fields; an unknown key is undefined. -/
def getAttr (e : Element) (a : String) : Option AttrValue :=
  if a = "isStatic" then e.isStatic.map AttrValue.ofBool
  else if a = "isFlammable" then e.isFlammable.map AttrValue.ofBool
  else if a = "hasColorVariation" then e.hasColorVariation.map AttrValue.ofBool
  else if a = "density" then some (AttrValue.ofQ e.density)
  else if a = "color" then some (AttrValue.ofString e.color)
  else if a = "state" then
    e.state.map fun s =>
      AttrValue.ofString (match s with
        | ElemState.solid => "solid"
        | ElemState.liquid => "liquid")
  else none

/-- A transformation-rule condition, from src/types/elements.ts.  The
min and max bounds are optional with the destructuring defaults 0 and 8;
presence is true for exists. -/
inductive RuleCondition
  | surrounding (element : ElementName) (min max : Option ℕ)
  | environment (element : ElementName) (presence : Bool) (radius : ℕ)
  | surroundingAttr (attrib : String) (value : AttrValue) (min max : Option ℕ)
  deriving DecidableEq, Repr

/-- A transformation rule; fromE and toE stand for the from and to fields
of the JSON shape. -/
structure TransformationRule where
  fromE : ElementName
  toE : ElementName
  probability : ℚ
  threshold : ℚ
  conditions : List RuleCondition
  consumes : Option ElementName := none
  spawnParticle : Option ElementName := none
  deriving DecidableEq, Repr

/-- The square of offsets scanned by an environment condition: both
coordinates from minus radius to radius. -/
def envOffsets (radius : ℕ) : List (ℤ × ℤ) :=
  (List.range (2 * radius + 1)).flatMap fun j =>
    (List.range (2 * radius + 1)).map fun i =>
      ((j : ℤ) - radius, (i : ℤ) - radius)

/-- checkCondition of the transformation engine. -/
def checkCondition (els : Elements) (g : Grid) (x y W H : ℤ) :
    RuleCondition → Bool
  | RuleCondition.surrounding element mn mx =>
      let count := (mooreOffsets.filter fun off =>
        let ny := y + off.1
        let nx := x + off.2
        decide (0 ≤ nx ∧ nx < W ∧ 0 ≤ ny ∧ ny < H ∧
          (g ny nx).type = element)).length
      decide (mn.getD 0 ≤ count ∧ count ≤ mx.getD 8)
  | RuleCondition.environment element presence radius =>
      let found := (envOffsets radius).any fun off =>
        decide (off ≠ (0, 0) ∧ 0 ≤ x + off.2 ∧ x + off.2 < W ∧
          0 ≤ y + off.1 ∧ y + off.1 < H ∧
          (g (y + off.1) (x + off.2)).type = element)
      if presence then found else !found
  | RuleCondition.surroundingAttr attrib value mn mx =>
      let count := (mooreOffsets.filter fun off =>
        let ny := y + off.1
        let nx := x + off.2
        decide (0 ≤ nx ∧ nx < W ∧ 0 ≤ ny ∧ ny < H) &&
          ((findElem els (g ny nx).type).any fun ed =>
            decide (getAttr ed attrib = some value))).length
      decide (mn.getD 0 ≤ count ∧ count ≤ mx.getD 8)

/-- The uppercase name string of an element, the key used by the colour
variation table. -/
def elementNameStr : ElementName → String
  | ElementName.EMPTY => "EMPTY"
  | ElementName.SOIL => "SOIL"
  | ElementName.WATER => "WATER"
  | ElementName.MUD => "MUD"
  | ElementName.FERTILE_SOIL => "FERTILE_SOIL"
  | ElementName.PEAT => "PEAT"
  | ElementName.CLOUD => "CLOUD"
  | ElementName.CLAY => "CLAY"
  | ElementName.FIRE => "FIRE"
  | ElementName.SAND => "SAND"
  | ElementName.STONE => "STONE"
  | ElementName.BASALT => "BASALT"
  | ElementName.OBSIDIAN => "OBSIDIAN"
  | ElementName.SEED => "SEED"
  | ElementName.PLANT => "PLANT"
  | ElementName.OIL => "OIL"
  | ElementName.CRYSTAL => "CRYSTAL"
  | ElementName.ELECTRUM => "ELECTRUM"
  | ElementName.RUBY => "RUBY"
  | ElementName.SAPPHIRE => "SAPPHIRE"
  | ElementName.AMETHYST => "AMETHYST"
  | ElementName.GARNET => "GARNET"
  | ElementName.EMERALD => "EMERALD"
  | ElementName.ETHER => "ETHER"
  | ElementName.THUNDER => "THUNDER"
  | ElementName.MAGMA => "MAGMA"

/-- The first Moore coordinate pair, in the engine-sorted direction order,
holding a cell of the consumed type (the consumes search). -/
def findConsume (g : Grid) (x y W H : ℤ) (ce : ElementName)
    (dirs : List ℤ) : Option (ℤ × ℤ) :=
  ((dirs.flatMap fun j => dirs.map fun i => (j, i)).filter fun off =>
    decide (¬(off.2 = 0 ∧ off.1 = 0) ∧ 0 ≤ x + off.2 ∧ x + off.2 < W ∧
      0 ≤ y + off.1 ∧ y + off.1 < H ∧
      (g (y + off.1) (x + off.2)).type = ce)).head?

/-- handleTransformations, the Pass 2 rule matcher (the version embedded
in src/game/physics.ts lines 876 to 1002).  The grid and newGrid
arguments of the source alias the same write buffer, so the embedding
carries a single grid.  The store-backed particle id counter is threaded
as nextId. -/
def handleTransformations (ext : Ext) (els : Elements)
    (rules : List TransformationRule) (cv : ColorVars) (g : Grid)
    (colorG : ℤ → ℤ → String) (x y W H : ℤ) (nextId : ℤ) (rnd : Rand)
    (k : ℕ) : Grid × (ℤ → ℤ → String) × List Particle × ℤ × ℕ :=
  let cell := g y x
  let applicable := rules.filter fun rule => rule.fromE = cell.type
  if applicable = [] then (g, colorG, [], nextId, k)
  else
    let met := applicable.filter fun rule =>
      rule.conditions.all (checkCondition els g x y W H)
    match met with
    | rule :: _ =>
        if rnd k < rule.probability then
          let cur := (g y x).counter.getD 0
          let nc := cur + 1
          if nc ≥ rule.threshold then
            -- consume a neighbour
            let (g1, colorG1) :=
              match rule.consumes with
              | none => (g, colorG)
              | some ce =>
                  match findConsume g x y W H ce (ext.sortDirs (k + 1)) with
                  | none => (g, colorG)
                  | some off =>
                      (setG g (y + off.1) (x + off.2)
                        { type := ElementName.EMPTY },
                       setS colorG (y + off.1) (x + off.2) (emptyColor els))
            -- commit the transformation
            let g2 := setG g1 y x { type := rule.toE, counter := some 0 }
            -- plant mode at birth
            let g3 :=
              if rule.toE = ElementName.PLANT then
                let mode :=
                  if 0 ≤ y - 1 ∧ (g2 (y - 1) x).type = ElementName.EMPTY then
                    PlantMode.ground_cover
                  else PlantMode.stem
                setG g2 y x { type := rule.toE
                              counter := some 0
                              plantMode := some mode
                              decayCounter := some 0 }
              else g2
            -- new colour
            let (colorG2, k2) : (ℤ → ℤ → String) × ℕ :=
              match findElem els rule.toE with
              | none => (colorG1, k + 1)
              | some ne =>
                  if ne.hasColorVariation = some true then
                    let vars := cv (elementNameStr ne.name)
                    if vars ≠ [] then
                      (setS colorG1 y x
                        (vars.getD (⌊rnd (k + 1) * vars.length⌋).toNat ""),
                       k + 2)
                    else (setS colorG1 y x ne.color, k + 1)
                  else (setS colorG1 y x ne.color, k + 1)
            -- spawn the rule particle
            let (ps1, nextId1, k3) : List Particle × ℤ × ℕ :=
              match rule.spawnParticle with
              | none => ([], nextId, k2)
              | some pt =>
                  ([{ id := nextId
                      px := (x : ℚ) + 1 / 2
                      py := (y : ℚ) + 1 / 2
                      vx := (rnd k2 - 1 / 2) * (1 / 2)
                      vy := (rnd (k2 + 1) - 1 / 2) * (1 / 2)
                      type := pt
                      life := 150 }], nextId + 1, k2 + 2)
            -- the independent ETHER emission
            let (ps2, nextId2, k4) : List Particle × ℤ × ℕ :=
              if rnd k3 < 1 / 1000 then
                (ps1 ++ [{ id := nextId1
                           px := (x : ℚ) + 1 / 2
                           py := (y : ℚ) + 1 / 2
                           vx := (rnd (k3 + 1) - 1 / 2) * (1 / 5)
                           vy := (rnd (k3 + 2) - 1 / 2) * (1 / 5)
                           type := ElementName.ETHER
                           life := 150 }], nextId1 + 1, k3 + 3)
              else (ps1, nextId1, k3 + 1)
            (g3, colorG2, ps2, nextId2, k4)
          else
            (setG g y x { cell with counter := some nc }, colorG, [],
             nextId, k + 1)
        else (g, colorG, [], nextId, k + 1)
    | [] =>
        if (g y x).counter.getD 0 > 0 then
          (setG g y x { cell with counter := some 0 }, colorG, [], nextId, k)
        else (g, colorG, [], nextId, k)

/-- Pass 2 of simulateWorld (physics.ts lines 169 to 182): the same scan
order as Pass 1, reading and writing the write buffer. -/
def transformationPass (ext : Ext) (els : Elements)
    (rules : List TransformationRule) (cv : ColorVars) (g : Grid)
    (colorG : ℤ → ℤ → String) (W H : ℤ) (scanRight : Bool) (nextId : ℤ)
    (rnd : Rand) (k : ℕ) :
    Grid × (ℤ → ℤ → String) × List Particle × ℤ × ℕ :=
  (List.range H.toNat).reverse.foldl
    (fun acc yn =>
      (List.range W.toNat).foldl
        (fun acc2 i =>
          let x : ℤ := if scanRight then (i : ℤ) else W - 1 - (i : ℤ)
          let (g0, c0, ps0, id0, k0) := acc2
          let (g1, c1, ps1, id1, k1) :=
            handleTransformations ext els rules cv g0 c0 x (yn : ℤ) W H id0
              rnd k0
          (g1, c1, ps0 ++ ps1, id1, k1))
        acc)
    (g, colorG, ([] : List Particle), nextId, k)

/-! ## Plant growth pass -/

/-- getRandomVariation of plantGrowthBehavior.ts: pick a random entry of
the variation list, or the fallback colour when the list is missing or
empty; a draw is consumed only when a pick happens. -/
def getRandomVariation (vars : List String) (fallback : String)
    (rnd : Rand) (k : ℕ) : String × ℕ :=
  if vars ≠ [] then (vars.getD (⌊rnd k * vars.length⌋).toNat "", k + 1)
  else (fallback, k)

/-- The stem upward-growth step of plantGrowthCell (the newY branch of
plantGrowthBehavior.ts): with chance 0.1 a stem extends one cell
upward when the cell above is not already PLANT. -/
def plantStemUp (cv : ColorVars) (pe : Element) (g2 : Grid)
    (colorG : ℤ → ℤ → String) (x y : ℤ) (rnd : Rand) (k2 : ℕ) :
    Grid × (ℤ → ℤ → String) × ℕ :=
  if 0 ≤ y - 1 then
    if rnd k2 < 1 / 10 then
      if (g2 (y - 1) x).type ≠ ElementName.PLANT then
        let (col, kz) := getRandomVariation (cv "PLANT") pe.color rnd
          (k2 + 1)
        (setG g2 (y - 1) x { type := ElementName.PLANT
                             plantMode := some PlantMode.stem
                             counter := some 0
                             decayCounter := some 0 },
         setS colorG (y - 1) x col, kz)
      else (g2, colorG, k2 + 1)
    else (g2, colorG, k2 + 1)
  else (g2, colorG, k2)

/-- The leaf-and-flower side step of plantGrowthCell: on an EMPTY
in-bounds side cell, chance 0.2 of a leaf, else chance 0.05 of a
flower. -/
def plantSideStep (cv : ColorVars) (pc : PartColors) (W x y : ℤ)
    (rnd : Rand) (acc : Grid × (ℤ → ℤ → String) × ℕ) (dir : ℤ) :
    Grid × (ℤ → ℤ → String) × ℕ :=
  let (ga, ca, ka) := acc
  let sideX := x + dir
  if 0 ≤ sideX ∧ sideX < W ∧ (ga y sideX).type = ElementName.EMPTY then
    if rnd ka < 1 / 5 then
      let (col, kz) := getRandomVariation (cv "PLANT_leaf") pc.leaf rnd
        (ka + 1)
      (setG ga y sideX { type := ElementName.PLANT
                         plantMode := some PlantMode.leaf },
       setS ca y sideX col, kz)
    else if rnd (ka + 1) < 1 / 20 then
      let (col, kz) := getRandomVariation (cv "PLANT_flower") pc.flower
        rnd (ka + 2)
      (setG ga y sideX { type := ElementName.PLANT
                         plantMode := some PlantMode.flower },
       setS ca y sideX col, kz)
    else (ga, ca, ka + 2)
  else acc

/-- The ground-cover lateral spread of plantGrowthCell: chance 0.3 of a
new ground-cover cell on a random EMPTY side with non-static support
below. -/
def plantSpread (els : Elements) (cv : ColorVars) (pe : Element)
    (g2 : Grid) (colorG : ℤ → ℤ → String) (W H x y : ℤ) (rnd : Rand)
    (k2 : ℕ) : Grid × (ℤ → ℤ → String) × ℕ :=
  let dir : ℤ := if rnd k2 < 1 / 2 then -1 else 1
  let k3 := k2 + 1
  let nx := x + dir
  if 0 ≤ nx ∧ nx < W ∧ (g2 y nx).type = ElementName.EMPTY then
    if rnd k3 < 3 / 10 then
      if y + 1 < H ∧ (g2 (y + 1) nx).type ≠ ElementName.EMPTY ∧
          ((findElem els (g2 (y + 1) nx).type).map
            Element.isStatic).getD none = some false then
        let (col, kz) := getRandomVariation (cv "PLANT") pe.color rnd
          (k3 + 1)
        (setG g2 y nx { type := ElementName.PLANT
                        plantMode := some PlantMode.ground_cover
                        counter := some 0
                        decayCounter := some 0 },
         setS colorG y nx col, kz)
      else (g2, colorG, k3 + 1)
    else (g2, colorG, k3 + 1)
  else (g2, colorG, k3)

/-- One cell of handlePlantGrowth (plantGrowthBehavior.ts lines 30 to
108).  The source receives grid and newGrid, which physics.ts passes as
the same write buffer, so the embedding carries a single aliased grid. -/
def plantGrowthCell (els : Elements) (cv : ColorVars) (pe : Element)
    (pc : PartColors) (g : Grid) (colorG : ℤ → ℤ → String) (W H x y : ℤ)
    (rnd : Rand) (k : ℕ) : Grid × (ℤ → ℤ → String) × ℕ :=
  let cell := g y x
  if cell.type ≠ ElementName.PLANT then (g, colorG, k)
  else if cell.plantMode = some PlantMode.withered then
    -- withered: accumulate the oil counter, become OIL past the threshold
    let oc := cell.oilCounter.getD 0 + 1
    if oc > 1500 * (4 / 5 + rnd k * (2 / 5)) then
      let (col, k2) := getRandomVariation (cv "OIL")
        (((findElem els ElementName.OIL).map Element.color).getD "") rnd
        (k + 1)
      (setG g y x { type := ElementName.OIL }, setS colorG y x col, k2)
    else
      (setG g y x { cell with type := ElementName.PLANT
                              plantMode := some PlantMode.withered
                              oilCounter := some oc }, colorG, k + 1)
  else if cell.plantMode = some PlantMode.stem ∨
      cell.plantMode = some PlantMode.ground_cover then
    -- 1: decay
    let dc := cell.decayCounter.getD 0 + 1
    if dc > 2000 * (4 / 5 + rnd k * (2 / 5)) then
      let (col, k2) := getRandomVariation (cv "PLANT_withered")
        pc.withered rnd (k + 1)
      (setG g y x { type := ElementName.PLANT
                    plantMode := some PlantMode.withered
                    oilCounter := some 0 }, setS colorG y x col, k2)
    else
      let g1 := setG g y x { cell with decayCounter := some dc }
      -- 2: growth
      let gc := cell.counter.getD 0 + 1
      if gc < 100 then
        (setG g1 y x { (g1 y x) with counter := some gc }, colorG, k + 1)
      else
        let g2 := setG g1 y x { (g1 y x) with counter := some 0 }
        let k2 := k + 1
        if cell.plantMode = some PlantMode.stem then
          -- a: grow upwards, b: leaves and flowers on both sides
          plantSideStep cv pc W x y rnd
            (plantSideStep cv pc W x y rnd
              (plantStemUp cv pe g2 colorG x y rnd k2) (-1)) 1
        else
          -- ground cover: spread laterally
          plantSpread els cv pe g2 colorG W H x y rnd k2
  else (g, colorG, k)

/-- handlePlantGrowth, Pass 2.5 of simulateWorld: a natural-order scan
over the write buffer, skipped entirely when the PLANT element or its
part colours are missing. -/
def handlePlantGrowth (els : Elements) (cv : ColorVars) (g : Grid)
    (colorG : ℤ → ℤ → String) (W H : ℤ) (rnd : Rand) (k : ℕ) :
    Grid × (ℤ → ℤ → String) × ℕ :=
  match findElem els ElementName.PLANT with
  | none => (g, colorG, k)
  | some pe =>
      match pe.partColors with
      | none => (g, colorG, k)
      | some pc =>
          (List.range H.toNat).foldl
            (fun acc yn =>
              (List.range W.toNat).foldl
                (fun acc2 xn =>
                  let (g0, c0, k0) := acc2
                  plantGrowthCell els cv pe pc g0 c0 W H (xn : ℤ) (yn : ℤ)
                    rnd k0)
                acc)
            (g, colorG, k)

/-! ## Ether pass -/

/-- A particle interaction rule, the shape used by the ether pass. -/
structure ParticleInteractionRule where
  particle : ElementName
  fromE : ElementName
  toE : ElementName
  probability : ℚ
  deriving DecidableEq, Repr

/-- The ether rule map of handleEtherParticles: built by Map.set over the
rule list, so the last rule for a given from-type wins. -/
def etherRuleFor (rules : List ParticleInteractionRule) (t : ElementName) :
    Option (ElementName × ℚ) :=
  ((rules.filter fun ru =>
    ru.particle = ElementName.ETHER ∧ ru.fromE = t).getLast?).map
    fun ru => (ru.toE, ru.probability)

/-- The spatial-hash bucket at an integer cell: the living ETHER particles
whose floored start-of-tick position is that cell, in list order. -/
def bucketOf (living : List Particle) (i j : ℤ) : List Particle :=
  living.filter fun q =>
    q.type = ElementName.ETHER ∧ ⌊q.px⌋ = i ∧ ⌊q.py⌋ = j

/-- The ids consumed by a CRYSTAL formation at cell (cx, cy) triggered by
particle id pid: every bucket member of the eight surrounding cells other
than the trigger itself, in scan order.  The centre bucket is not
scanned. -/
def consumeIds (living : List Particle) (pid : ℤ) (cx cy : ℤ) : List ℤ :=
  (mooreOffsets.flatMap fun off =>
    (bucketOf living (cx + off.2) (cy + off.1)).filter fun q =>
      q.id ≠ pid).map Particle.id

/-- The fold state of the ether pass: the ids whose original objects were
marked dead by a crystal formation, the mutated grid, the changed flag,
the output list and the draw index. -/
structure EtherAcc where
  killed : List ℤ
  g : Grid
  gridChanged : Bool
  outs : List Particle
  k : ℕ

/-- One particle of the ether pass map (part_015 lines 54 to 128).  The
life of the original object is zero when a previous crystal formation
consumed it. -/
def etherStep (rules : List ParticleInteractionRule)
    (living : List Particle) (W H : ℤ) (rnd : Rand) (acc : EtherAcc)
    (p : Particle) : EtherAcc :=
  let effLife := if p.id ∈ acc.killed then 0 else p.life
  if p.type ≠ ElementName.ETHER then
    { acc with outs := acc.outs ++ [{ p with life := effLife }] }
  else
    let life1 := effLife - 1
    if life1 ≤ 0 then acc
    else
      let vx1 := p.vx + (rnd acc.k - 1 / 2) * (3 / 20)
      let vy1 := p.vy + (rnd (acc.k + 1) - 1 / 2) * (3 / 20)
      let vx2 := max (-(1 / 2) : ℚ) (min (1 / 2) vx1)
      let vy2 := max (-(1 / 2) : ℚ) (min (1 / 2) vy1)
      let px1 := p.px + vx2
      let py1 := p.py + vy2
      let (px2, vx3) : ℚ × ℚ :=
        if px1 < 0 then (0, vx2 * (-(1 / 2)))
        else if px1 ≥ W then ((W : ℚ) - 1, vx2 * (-(1 / 2)))
        else (px1, vx2)
      let (py2, vy3) : ℚ × ℚ :=
        if py1 < 0 then (0, vy2 * (-(1 / 2)))
        else if py1 ≥ H then ((H : ℚ) - 1, vy2 * (-(1 / 2)))
        else (py1, vy2)
      let k2 := acc.k + 2
      let q : Particle := { p with life := life1
                                   vx := vx3
                                   vy := vy3
                                   px := px2
                                   py := py2 }
      let cx := ⌊px2⌋
      let cy := ⌊py2⌋
      if 0 ≤ cx ∧ cx < W ∧ 0 ≤ cy ∧ cy < H then
        match etherRuleFor rules (acc.g cy cx).type with
        | some (toE, prob) =>
            if rnd k2 < prob then
              if toE = ElementName.CRYSTAL then
                let ids := consumeIds living p.id cx cy
                let storage : ℚ := 1 + ids.length
                { killed := acc.killed ++ ids
                  g := setG acc.g cy cx { type := ElementName.CRYSTAL
                                          etherStorage := some storage }
                  gridChanged := true
                  outs := acc.outs ++ [{ q with life := 0 }]
                  k := k2 + 1 }
              else
                { acc with g := setG acc.g cy cx { type := toE }
                           gridChanged := true
                           outs := acc.outs ++ [{ q with life := 0 }]
                           k := k2 + 1 }
            else { acc with outs := acc.outs ++ [q], k := k2 + 1 }
        | none => { acc with outs := acc.outs ++ [q], k := k2 }
      else { acc with outs := acc.outs ++ [q], k := k2 }

/-- handleEtherParticles of part_015 (the ether pass matching the call in
physics.ts): filter the dead, hash the living ETHER particles by cell,
then map each particle through etherStep. -/
def handleEtherParticles (rules : List ParticleInteractionRule)
    (particles : List Particle) (g : Grid) (W H : ℤ) (rnd : Rand)
    (k : ℕ) : List Particle × Grid × Bool × ℕ :=
  let living := particles.filter fun p => p.life > 0
  let final := living.foldl (etherStep rules living W H rnd)
    { killed := [], g := g, gridChanged := false, outs := [], k := k }
  (final.outs, final.g, final.gridChanged, final.k)

/-! ## Thunder pass and explosions -/

/-- The zap table of the thunder behaviour. -/
def zapRules : ElementName → Option ElementName
  | ElementName.PLANT => some ElementName.FIRE
  | ElementName.OIL => some ElementName.FIRE
  | ElementName.PEAT => some ElementName.FIRE
  | ElementName.FERTILE_SOIL => some ElementName.FIRE
  | ElementName.SOIL => some ElementName.FIRE
  | _ => none

/-- The scatter-allowed set AFFECTED_BY_EXPLOSION. -/
def AFFECTED_BY_EXPLOSION : List ElementName :=
  [ElementName.SOIL, ElementName.SAND, ElementName.WATER, ElementName.MUD,
   ElementName.PEAT, ElementName.FERTILE_SOIL, ElementName.CLAY,
   ElementName.FIRE, ElementName.PLANT, ElementName.SEED, ElementName.OIL]

/-- The offsets of the explosion double loop, both coordinates from minus
radius to radius, row offset first. -/
def explOffsets (radius : ℤ) : List (ℤ × ℤ) :=
  (List.range (2 * radius + 1).toNat).flatMap fun jn =>
    (List.range (2 * radius + 1).toNat).map fun inn =>
      ((jn : ℤ) - radius, (inn : ℤ) - radius)

/-- The fold state of createExplosion: the mutated grid, the scatter
particles appended so far, the id counter and the draw index. -/
structure ExplAcc where
  g : Grid
  spawned : List Particle
  nextId : ℤ
  k : ℕ

/-- One cell of createExplosion (plantGrowthBehavior.ts second part,
lines 147 to 176): within the circular radius, scatter an allowed cell
with probability one minus distance over radius, give the particle an
outward velocity and life 100, and clear the cell. -/
def explodeCell (ext : Ext) (W H cx cy : ℤ) (radius : ℤ) (rnd : Rand)
    (acc : ExplAcc) (off : ℤ × ℤ) : ExplAcc :=
  let j := off.1
  let i := off.2
  let nx := cx + i
  let ny := cy + j
  if 0 ≤ nx ∧ nx < W ∧ 0 ≤ ny ∧ ny < H then
    let dist := ext.sqrtF ((i * i + j * j : ℤ) : ℚ)
    if dist ≤ (radius : ℚ) then
      let cellType := (acc.g ny nx).type
      if cellType ∈ AFFECTED_BY_EXPLOSION then
        let prob := 1 - dist / (radius : ℚ)
        if rnd acc.k < prob then
          let power := (1 - dist / (radius : ℚ)) * 2
          { g := setG acc.g ny nx { type := ElementName.EMPTY }
            spawned := acc.spawned ++
              [{ id := acc.nextId
                 type := cellType
                 px := (nx : ℚ) + 1 / 2
                 py := (ny : ℚ) + 1 / 2
                 vx := (i : ℚ) * power * (1 / 2)
                 vy := (j : ℚ) * power * (1 / 2)
                 life := 100 }]
            nextId := acc.nextId + 1
            k := acc.k + 1 }
        else { acc with k := acc.k + 1 }
      else acc
    else acc
  else acc

/-- createExplosion of the live thunder behaviour. -/
def createExplosion (ext : Ext) (g : Grid) (cx cy radius W H : ℤ)
    (spawned : List Particle) (nextId : ℤ) (rnd : Rand) (k : ℕ) :
    ExplAcc :=
  (explOffsets radius).foldl (explodeCell ext W H cx cy radius rnd)
    { g := g, spawned := spawned, nextId := nextId, k := k }

/-- The fold state of the thunder pass. -/
structure ThunderAcc where
  g : Grid
  gridChanged : Bool
  spawned : List Particle
  nextId : ℤ
  outs : List Particle
  k : ℕ

/-- The velocity update of a thunder particle: a random horizontal
kick clamped to [-2, 2] and a downward drift clamped to [-1, 4]. -/
def thunderMove (p : Particle) (r : ℚ) : ℚ × ℚ :=
  (max (-2 : ℚ) (min 2 (p.vx + (r - 1 / 2) * (3 / 2))),
   max (-1 : ℚ) (min 4 (p.vy + 1 / 10)))

/-- One particle of the thunder pass map (the live handleThunderParticles
of the plantGrowthBehavior.ts second part). -/
def thunderStep (ext : Ext) (els : Elements) (W H : ℤ) (rnd : Rand)
    (acc : ThunderAcc) (p : Particle) : ThunderAcc :=
  if p.type ≠ ElementName.THUNDER then
    { acc with outs := acc.outs ++ [p] }
  else
    let life1 := p.life - 1
    if life1 ≤ 0 then acc
    else
      let v := thunderMove p (rnd acc.k)
      let vx2 := v.1
      let vy2 := v.2
      let px := p.px + vx2
      let py := p.py + vy2
      let k2 := acc.k + 1
      let q : Particle := { p with life := life1
                                   vx := vx2
                                   vy := vy2
                                   px := px
                                   py := py }
      if px < 0 ∨ px ≥ W ∨ py < 0 ∨ py ≥ H then { acc with k := k2 }
      else
        let cx := ⌊px⌋
        let cy := ⌊py⌋
        if 0 ≤ cx ∧ cx < W ∧ 0 ≤ cy ∧ cy < H then
          let cellType := (acc.g cy cx).type
          if cellType = ElementName.WATER then
            let radius := ⌊rnd k2 * 2⌋ + 1
            let e := createExplosion ext acc.g cx cy radius W H acc.spawned
              acc.nextId rnd (k2 + 1)
            { g := e.g, gridChanged := true, spawned := e.spawned,
              nextId := e.nextId, outs := acc.outs, k := e.k }
          else
            match findElem els cellType with
            | none => { acc with outs := acc.outs ++ [q], k := k2 }
            | some ed =>
                if (zapRules cellType).isSome ∧ ed.isFlammable = some true
                  then
                  if rnd k2 < 1 / 2 then
                    let g1 := setG acc.g cy cx
                      { type := (zapRules cellType).getD ElementName.FIRE }
                    let radius := ⌊rnd (k2 + 1) * 3⌋ + 1
                    let e := createExplosion ext g1 cx cy radius W H
                      acc.spawned acc.nextId rnd (k2 + 2)
                    { g := e.g, gridChanged := true, spawned := e.spawned,
                      nextId := e.nextId,
                      outs := acc.outs ++ [{ q with life := 0 }], k := e.k }
                  else { acc with outs := acc.outs ++ [q], k := k2 + 1 }
                else { acc with outs := acc.outs ++ [q], k := k2 }
        else { acc with outs := acc.outs ++ [q], k := k2 }

/-- handleThunderParticles, the thunder pass.  The spawned list is the
spawnedParticles array of simulateWorld, to which explosion debris is
appended. -/
def handleThunderParticles (ext : Ext) (els : Elements)
    (particles : List Particle) (g : Grid) (W H : ℤ)
    (spawned : List Particle) (nextId : ℤ) (rnd : Rand) (k : ℕ) :
    List Particle × Grid × Bool × List Particle × ℤ × ℕ :=
  let living := particles.filter fun p => p.life > 0
  let final := living.foldl (thunderStep ext els W H rnd)
    { g := g, gridChanged := false, spawned := spawned, nextId := nextId,
      outs := [], k := k }
  (final.outs, final.g, final.gridChanged, final.spawned, final.nextId,
   final.k)

/-! ## Fire particle pass -/

/-- The fire transformation table of fireParticleBehavior.ts. -/
def fireTransformationRules : ElementName → Option ElementName
  | ElementName.SOIL => some ElementName.SAND
  | ElementName.CLAY => some ElementName.STONE
  | ElementName.STONE => some ElementName.MAGMA
  | ElementName.PLANT => some ElementName.FIRE
  | ElementName.OIL => some ElementName.FIRE
  | ElementName.PEAT => some ElementName.FIRE
  | ElementName.FERTILE_SOIL => some ElementName.FIRE
  | ElementName.SAND => some ElementName.MAGMA
  | _ => none

/-- All nine offsets of a 3 by 3 block, row offset first, in scan
order. -/
def offsets3x3 : List (ℤ × ℤ) :=
  [(-1, -1), (-1, 0), (-1, 1), (0, -1), (0, 0), (0, 1), (1, -1), (1, 0),
   (1, 1)]

/-- The first offset of a given scan list holding a CRYSTAL, in the scan
order of the fire crystal loop. -/
def firstCrystalIn (offs : List (ℤ × ℤ)) (g : Grid) (W H cx cy : ℤ) :
    Option (ℤ × ℤ) :=
  (offs.filter fun off =>
    decide (0 ≤ cx + off.2 ∧ cx + off.2 < W ∧ 0 ≤ cy + off.1 ∧
      cy + off.1 < H ∧
      (g (cy + off.1) (cx + off.2)).type = ElementName.CRYSTAL)).head?

/-- The first Moore neighbour holding a CRYSTAL, in the scan order of the
fire crystal loop. -/
def firstCrystal (g : Grid) (W H cx cy : ℤ) : Option (ℤ × ℤ) :=
  firstCrystalIn mooreOffsets g W H cx cy

/-- Whether WATER lies in the 3 by 3 block around the particle, the
centre included. -/
def waterAdjacent (g : Grid) (W H cx cy : ℤ) : Bool :=
  offsets3x3.any fun off =>
    decide (0 ≤ cx + off.2 ∧ cx + off.2 < W ∧ 0 ≤ cy + off.1 ∧
      cy + off.1 < H ∧ (g (cy + off.1) (cx + off.2)).type =
        ElementName.WATER)

/-- In-bounds Moore neighbours whose type has a fire transformation, in
scan order: the flammableNeighbors collection. -/
def flammableNeighbors (g : Grid) (W H cx cy : ℤ) : List (ℤ × ℤ) :=
  mooreOffsets.filter fun off =>
    decide (0 ≤ cx + off.2 ∧ cx + off.2 < W ∧ 0 ≤ cy + off.1 ∧
      cy + off.1 < H) &&
    (fireTransformationRules (g (cy + off.1) (cx + off.2)).type).isSome

/-- The fold state of the fire pass. -/
structure FireAcc where
  g : Grid
  gridChanged : Bool
  newSpawned : List Particle
  nextId : ℤ
  outs : List Particle
  k : ℕ

/-- One fire particle of handleFireParticles (fireParticleBehavior.ts
lines 43 to 170): decrement, crystal contact, water quench, end-of-life
burn and spread, or the in-life ignition chance. -/
def fireStep (W H : ℤ) (rnd : Rand) (acc : FireAcc) (p : Particle) :
    FireAcc :=
  let life1 := p.life - 1
  let cx := ⌊p.px⌋
  let cy := ⌊p.py⌋
  if life1 ≤ 0 then
    -- the life check at the end of the first row breaks the crystal
    -- scan of an already expired particle after offsets (-1, *) only
    match firstCrystalIn [(-1, -1), (-1, 0), (-1, 1)] acc.g W H cx cy with
    | some off =>
        { acc with g := setG acc.g (cy + off.1) (cx + off.2)
                     { type := ElementName.RUBY }
                   gridChanged := true }
    | none => acc
  else
    match firstCrystal acc.g W H cx cy with
    | some off =>
        -- crystal to RUBY, particle extinguished and removed at once
        { acc with g := setG acc.g (cy + off.1) (cx + off.2)
                     { type := ElementName.RUBY }
                   gridChanged := true }
    | none =>
      if waterAdjacent acc.g W H cx cy then
        -- extinguished by water: the end-of-life burn logic runs
        let (g1, ch1) : Grid × Bool :=
          match fireTransformationRules (acc.g cy cx).type with
          | some tr =>
              (setG acc.g cy cx
                { type := if tr = ElementName.FIRE then ElementName.EMPTY
                          else tr }, true)
          | none => (acc.g, acc.gridChanged)
        let flam := flammableNeighbors g1 W H cx cy
        if flam ≠ [] then
          if rnd acc.k < 13 / 20 then
            let off := flam.getD (⌊rnd (acc.k + 1) * flam.length⌋).toNat
              (0, 0)
            { acc with
              g := g1
              gridChanged := acc.gridChanged || ch1
              newSpawned := acc.newSpawned ++
                [{ id := acc.nextId
                   type := ElementName.FIRE
                   px := ((cx + off.2 : ℤ) : ℚ) + 1 / 2
                   py := ((cy + off.1 : ℤ) : ℚ) + 1 / 2
                   vx := 0
                   vy := 0
                   life := ((⌊rnd (acc.k + 2) * 40⌋ : ℤ) : ℚ) + 80 }]
              nextId := acc.nextId + 1
              k := acc.k + 3 }
          else
            { acc with g := g1, gridChanged := acc.gridChanged || ch1,
                       k := acc.k + 1 }
        else
          { acc with g := g1, gridChanged := acc.gridChanged || ch1 }
      else
        -- alive: chance to ignite a neighbour without moving
        let acc2 : FireAcc :=
          if rnd acc.k < 3 / 20 then
            let flam := flammableNeighbors acc.g W H cx cy
            if flam ≠ [] then
              let off := flam.getD (⌊rnd (acc.k + 1) * flam.length⌋).toNat
                (0, 0)
              match fireTransformationRules
                  (acc.g (cy + off.1) (cx + off.2)).type with
              | some nt =>
                  if nt = ElementName.FIRE then
                    { acc with
                      g := setG acc.g (cy + off.1) (cx + off.2)
                        { type := ElementName.EMPTY }
                      gridChanged := true
                      newSpawned := acc.newSpawned ++
                        [{ id := acc.nextId
                           type := ElementName.FIRE
                           px := ((cx + off.2 : ℤ) : ℚ) + 1 / 2
                           py := ((cy + off.1 : ℤ) : ℚ) + 1 / 2
                           vx := 0
                           vy := 0
                           life := ((⌊rnd (acc.k + 2) * 40⌋ : ℤ) : ℚ) + 80 }]
                      nextId := acc.nextId + 1
                      k := acc.k + 3 }
                  else
                    { acc with
                      g := setG acc.g (cy + off.1) (cx + off.2)
                        { type := nt }
                      gridChanged := true
                      k := acc.k + 2 }
              | none => { acc with k := acc.k + 2 }
            else { acc with k := acc.k + 1 }
          else { acc with k := acc.k + 1 }
        { acc2 with outs := acc2.outs ++ [{ p with life := life1 }] }

/-- handleFireParticles, the fire pass: fire particles are separated from
the rest, stepped, and the output is the others followed by the surviving
fire particles and the newly spawned ones. -/
def handleFireParticles (particles : List Particle) (g : Grid) (W H : ℤ)
    (nextId : ℤ) (rnd : Rand) (k : ℕ) :
    List Particle × Grid × Bool × ℤ × ℕ :=
  let fireParticles := particles.filter fun p => p.type = ElementName.FIRE
  let others := particles.filter fun p => p.type ≠ ElementName.FIRE
  let final := fireParticles.foldl (fireStep W H rnd)
    { g := g, gridChanged := false, newSpawned := [], nextId := nextId,
      outs := [], k := k }
  (others ++ final.outs ++ final.newSpawned, final.g, final.gridChanged,
   final.nextId, final.k)

/-! ## Placement (GameScene.updateAtPointer) -/

/-- The PARTICLE_ELEMENTS constant of the game scene: empty, so the
particle placement branch is unreachable. -/
def PARTICLE_ELEMENTS : List ElementName := []

/-- The outcome of a placement request: the silent no-ops, the logged
error for an unknown element, or a successful write. -/
inductive PlaceOutcome
  | placed | placedParticle | noopOutOfBounds | noopNonEmpty | errorUnknown
  deriving DecidableEq, Repr

/-- The four scene buffers touched by placement. -/
structure SceneBuffers where
  grid0 : Grid
  grid1 : Grid
  color0 : ℤ → ℤ → String
  color1 : ℤ → ℤ → String

/-- addParticle of the game store: append a particle with the next id,
life 150 (20 for THUNDER). -/
def addParticle (x y : ℚ) (t : ElementName) (vx vy : ℚ) (nextId : ℤ) :
    Particle × ℤ :=
  ({ id := nextId, px := x, py := y, vx := vx, vy := vy, type := t,
     life := if t = ElementName.THUNDER then 20 else 150 }, nextId + 1)

/-- GameScene.updateAtPointer (part 008 lines 154 to 205): pointer pixels
to grid cell, bounds check, EMPTY check against the active read buffer,
then either the (unreachable) particle branch, a logged error for an
element missing from the registry, or a write of cell and colour into
BOTH buffers.  active0 is true when buffer 0 is the active read
buffer. -/
def updateAtPointer (els : Elements) (cv : ColorVars) (cellSize : ℚ)
    (W H : ℤ) (bufs : SceneBuffers) (active0 : Bool)
    (selectedElement : ElementName) (nextId : ℤ) (px py : ℚ)
    (rnd : Rand) (k : ℕ) :
    SceneBuffers × PlaceOutcome × Option Particle × ℤ × ℕ :=
  let gridX := ⌊px / cellSize⌋
  let gridY := ⌊py / cellSize⌋
  if gridX < 0 ∨ gridX ≥ W ∨ gridY < 0 ∨ gridY ≥ H then
    (bufs, PlaceOutcome.noopOutOfBounds, none, nextId, k)
  else
    let readBuffer := if active0 then bufs.grid0 else bufs.grid1
    if (readBuffer gridY gridX).type ≠ ElementName.EMPTY then
      (bufs, PlaceOutcome.noopNonEmpty, none, nextId, k)
    else if selectedElement ∈ PARTICLE_ELEMENTS then
      let vx := (rnd k - 1 / 2) * (1 / 2)
      let vy := (rnd (k + 1) - 1 / 2) * (1 / 2)
      let (p, nextId1) := addParticle ((gridX : ℚ) + 1 / 2)
        ((gridY : ℚ) + 1 / 2) selectedElement vx vy nextId
      (bufs, PlaceOutcome.placedParticle, some p, nextId1, k + 2)
    else
      match findElem els selectedElement with
      | none => (bufs, PlaceOutcome.errorUnknown, none, nextId, k)
      | some info =>
          let newCell : Cell := { type := selectedElement }
          let (newColor, k1) : String × ℕ :=
            if info.hasColorVariation = some true then
              let vars := cv (elementNameStr selectedElement)
              if vars ≠ [] then
                (vars.getD (⌊rnd k * vars.length⌋).toNat "", k + 1)
              else (info.color, k)
            else (info.color, k)
          ({ grid0 := setG bufs.grid0 gridY gridX newCell
             grid1 := setG bufs.grid1 gridY gridX newCell
             color0 := setS bufs.color0 gridY gridX newColor
             color1 := setS bufs.color1 gridY gridX newColor },
           PlaceOutcome.placed, none, nextId, k1)

/-! ## The full tick: simulateWorld and the scene driver -/

/-- One buffer triple: cells, last moves, colours. -/
structure BufTriple where
  g : Grid
  last : ℤ → ℤ → MoveDirection
  color : ℤ → ℤ → String

/-- The Pass 3 prologue of simulateWorld: give a real id to every spawned
particle still carrying the sentinel id of minus one. -/
def assignIds : List Particle → ℤ → List Particle × ℤ
  | [], n => ([], n)
  | p :: rest, n =>
      let (p1, n1) : Particle × ℤ :=
        if p.id = -1 then ({ p with id := n }, n + 1) else (p, n)
      let (rest1, n2) := assignIds rest n1
      (p1 :: rest1, n2)

/-- The copy-back loop of simulateWorld (physics.ts lines 236 to 248):
where the particle passes changed a cell type, copy it into the write
buffer and recolour (with variation through varyColor when the element
asks for it). -/
def copyBack (ext : Ext) (els : Elements) (writeG : Grid)
    (writeColor : ℤ → ℤ → String) (finalG : Grid) (W H : ℤ) (rnd : Rand)
    (k : ℕ) : Grid × (ℤ → ℤ → String) × ℕ :=
  (List.range H.toNat).foldl
    (fun acc yn =>
      (List.range W.toNat).foldl
        (fun acc2 xn =>
          let (g0, c0, k0) := acc2
          let y : ℤ := (yn : ℤ)
          let x : ℤ := (xn : ℤ)
          if (g0 y x).type ≠ (finalG y x).type then
            let newType := (finalG y x).type
            let base := ((findElem els newType).map Element.color).getD
              "#000000"
            let (col, k1) : String × ℕ :=
              if ((findElem els newType).map
                  Element.hasColorVariation).getD none = some true then
                (ext.varyColorF base (rnd k0), k0 + 1)
              else (base, k0)
            (setG g0 y x (finalG y x), setS c0 y x col, k1)
          else acc2)
        acc)
    (writeG, writeColor, k)

/-- simulateWorld of src/game/physics.ts: the six passes in order.  The
store-backed particle id counter is threaded: Pass 2 draws fresh ids for
its spawned particles and the Pass 3 prologue continues from there. -/
def simulateWorld (ext : Ext) (els : Elements)
    (rules : List TransformationRule)
    (pirules : List ParticleInteractionRule) (cv : ColorVars)
    (readB writeB : BufTriple) (particles : List Particle)
    (frameCount : ℕ) (W H : ℤ) (nextId : ℤ) (rnd : Rand) (k : ℕ) :
    BufTriple × List Particle × ℤ × ℕ :=
  if H ≤ 0 ∨ W ≤ 0 then (writeB, particles, nextId, k)
  else if els = [] then (writeB, particles, nextId, k)
  else
    let scanRight := frameCount % 2 = 0
    let r : RCtx := { grid := readB.g, lastMoveGrid := readB.last,
                      colorGrid := readB.color, width := W, height := H,
                      scanRight := scanRight }
    let stale : WCtx := { newGrid := writeB.g,
                          newLastMoveGrid := writeB.last,
                          newColorGrid := writeB.color,
                          moved := fun _ _ => false }
    -- Pass 1: movement
    let (w1, ps1, k1) := movementPass ext els cv r stale rnd k
    -- Pass 2: transformations
    let (g2, c2, ps2, id2, k2) := transformationPass ext els rules cv
      w1.newGrid w1.newColorGrid W H scanRight nextId rnd k1
    -- Pass 2.5: plant growth
    let (g25, c25, k25) := handlePlantGrowth els cv g2 c2 W H rnd k2
    -- Pass 3 prologue: assign real ids to the spawned particles
    let (spawnAssigned, id3) := assignIds (ps1 ++ ps2) id2
    let allParticles := particles ++ spawnAssigned
    -- Pass 3: ether
    let (etherOuts, gE, chE, kE) := handleEtherParticles pirules
      allParticles g25 W H rnd k25
    -- Pass 4: thunder
    let (thOuts, gT, chT, _spawned2, id4, kT) := handleThunderParticles
      ext els etherOuts gE W H spawnAssigned id3 rnd kE
    -- Pass 5: fire
    let (fireOuts, gF, chF, id5, kF) := handleFireParticles thOuts gT W H
      id4 rnd kT
    -- copy particle-pass grid changes back into the write buffer
    if chE ∨ chT ∨ chF then
      let finalG := if chF then gF else if chT then gT else gE
      let (gw, cw, kw) := copyBack ext els g25 c25 finalG W H rnd kF
      ({ g := gw, last := w1.newLastMoveGrid, color := cw }, fireOuts,
       id5, kw)
    else
      ({ g := g25, last := w1.newLastMoveGrid, color := c25 }, fireOuts,
       id5, kF)

/-- The double-buffered scene state of GameScene. -/
structure SceneState where
  bufA : BufTriple
  bufB : BufTriple
  activeA : Bool
  particles : List Particle
  frameCount : ℕ
  nextId : ℤ
  k : ℕ

/-- The buffer the renderer and the next tick read. -/
def SceneState.activeBuf (s : SceneState) : BufTriple :=
  if s.activeA then s.bufA else s.bufB

/-- GameScene.runSimulation: run simulateWorld from the active buffer
into the back buffer, adopt the particles, swap buffers, bump the frame
counter. -/
def runTick (ext : Ext) (els : Elements) (rules : List TransformationRule)
    (pirules : List ParticleInteractionRule) (cv : ColorVars) (W H : ℤ)
    (rnd : Rand) (s : SceneState) : SceneState :=
  let readB := if s.activeA then s.bufA else s.bufB
  let writeB := if s.activeA then s.bufB else s.bufA
  let (write2, newPs, id2, k2) := simulateWorld ext els rules pirules cv
    readB writeB s.particles s.frameCount W H s.nextId rnd s.k
  { bufA := if s.activeA then s.bufA else write2
    bufB := if s.activeA then write2 else s.bufB
    activeA := !s.activeA
    particles := newPs
    frameCount := s.frameCount + 1
    nextId := id2
    k := k2 }

/-! ## Concrete data for the scenarios

The element registry is a runtime JSON asset, not source code; the
scenario theorems therefore instantiate it with definitions satisfying
exactly the properties the claims stipulate (densities, states,
fluidity). -/

open ElementName

/-- The EMPTY element definition used by the scenarios. -/
def emptyDef : Element := { name := EMPTY, color := "#000000", density := 0 }

/-- A WATER definition: liquid, fluid, density 1. -/
def waterDef : Element := { name := WATER, color := "#0000FF", density := 1, state := some ElemState.liquid, fluidity := some { resistance := 0, spread := 1/2 }, isStatic := some false }

/-- A SAND definition: solid, fluid, density above WATER. -/
def sandDef : Element := { name := SAND, color := "#C2B280", density := 3/2, state := some ElemState.solid, fluidity := some { resistance := 1/10, spread := 1/10 }, isStatic := some false }

/-- A CRYSTAL definition: solid, fluid so that crystals can fall. -/
def crystalDef : Element := { name := CRYSTAL, color := "#88FFEE", density := 2, state := some ElemState.solid, fluidity := some { resistance := 0, spread := 0 } }

/-- A SOIL definition. -/
def soilDef : Element := { name := SOIL, color := "#8B4513", density := 6/5, state := some ElemState.solid, fluidity := some { resistance := 1/10, spread := 1/10 } }

/-- A PLANT definition carrying the part colours the growth pass needs. -/
def plantDef : Element := { name := PLANT, color := "#00FF00", density := 1, partColors := some { withered := "#886600", leaf := "#00AA00", flower := "#FF00AA" } }

/-- An OIL definition. -/
def oilDef : Element := { name := OIL, color := "#332222", density := 9/10, state := some ElemState.liquid, fluidity := some { resistance := 1/10, spread := 1/2 } }

/-- A rational stand-in for the JS Math.sqrt at the arguments the
explosion code reaches for radii one and two. -/
def sqrtTab : ℚ → ℚ := fun q => if q = 0 then 0 else if q = 1 then 1 else if q = 2 then 3/2 else if q = 4 then 2 else if q = 5 then 9/4 else if q = 8 then 3 else 0

/-- Concrete external routines for the scenario runs. -/
def extC : Ext := { cosF := fun _ => 1, sinF := fun _ => 0, sqrtF := sqrtTab, piF := 355/113, sortDirs := fun _ => [-1, 0, 1], varyColorF := fun s _ => s }

/-- The constant one-half random stream. -/
def rndHalf : Rand := fun _ => 1/2

/-- The constant zero random stream: every probability roll succeeds. -/
def rndZero : Rand := fun _ => 0

/-- The empty colour variation table. -/
def cvNone : ColorVars := fun _ => []

/-! ## Helper lemmas about the passes -/

/-- A fold whose step fixes every state is the identity. -/
theorem foldl_id {α β : Type} (f : α → β → α) (h : ∀ a b, f a b = a) :
    ∀ (l : List β) (a : α), List.foldl f a l = a := by
  intro l
  induction l with
  | nil => intro a; rfl
  | cons b t ih => intro a; rw [List.foldl_cons, h a b]; exact ih a

/-- With no transformation rules, handleTransformations changes
nothing. -/
theorem handleTransformations_nil (ext : Ext) (els : Elements)
    (cv : ColorVars) (g : Grid) (c : ℤ → ℤ → String) (x y W H : ℤ)
    (nid : ℤ) (rnd : Rand) (k : ℕ) :
    handleTransformations ext els [] cv g c x y W H nid rnd k =
      (g, c, [], nid, k) := rfl

/-- With no transformation rules, Pass 2 changes nothing. -/
theorem transformationPass_nil (ext : Ext) (els : Elements)
    (cv : ColorVars) (g : Grid) (c : ℤ → ℤ → String) (W H : ℤ)
    (sr : Bool) (nid : ℤ) (rnd : Rand) (k : ℕ) :
    transformationPass ext els [] cv g c W H sr nid rnd k =
      (g, c, [], nid, k) := by
  unfold transformationPass
  rw [foldl_id]
  intro a yn
  rw [foldl_id]
  intro a2 i
  rcases a2 with ⟨g0, c0, ps0, id0, k0⟩
  simp [handleTransformations_nil]

/-- With both sideways columns unavailable, the spreading step does not
move and consumes exactly one draw, whatever the draw returns. -/
theorem side_noMove (els : Elements) (r : RCtx) (w : WCtx) (x y : ℤ)
    (cur : Cell) (myColor : String) (spread : ℚ) (rnd : Rand) (k : ℕ)
    (hL : ¬(0 ≤ x - 1 ∧ (r.grid y (x - 1)).type = ElementName.EMPTY ∧
      w.moved y (x - 1) = false))
    (hR : ¬(x + 1 < r.width ∧ (r.grid y (x + 1)).type = ElementName.EMPTY ∧
      w.moved y (x + 1) = false)) :
    Granular.side els r w x y cur myColor spread rnd k = (none, k + 1) := by
  unfold Granular.side
  split
  · rw [if_neg (by tauto), if_neg hL, if_neg hR]
  · rfl

/-- The ether pass on an empty particle list is inert. -/
theorem ether_nil (pir : List ParticleInteractionRule) (g : Grid)
    (W H : ℤ) (rnd : Rand) (k : ℕ) :
    handleEtherParticles pir [] g W H rnd k = ([], g, false, k) := rfl

/-- The thunder pass on an empty particle list is inert. -/
theorem thunder_nil (ext : Ext) (els : Elements) (g : Grid) (W H : ℤ)
    (sp : List Particle) (nid : ℤ) (rnd : Rand) (k : ℕ) :
    handleThunderParticles ext els [] g W H sp nid rnd k =
      ([], g, false, sp, nid, k) := rfl

/-- The fire pass on an empty particle list is inert. -/
theorem fire_nil (g : Grid) (W H : ℤ) (nid : ℤ) (rnd : Rand) (k : ℕ) :
    handleFireParticles [] g W H nid rnd k = ([], g, false, nid, k) := rfl

/-- The read context a tick builds from a buffer triple. -/
def readCtxOf (b : BufTriple) (W H : ℤ) (sr : Bool) : RCtx :=
  { grid := b.g, lastMoveGrid := b.last, colorGrid := b.color, width := W, height := H, scanRight := sr }

/-- The stale write context a tick builds from a buffer triple. -/
def staleOf (b : BufTriple) : WCtx :=
  { newGrid := b.g, newLastMoveGrid := b.last, newColorGrid := b.color, moved := fun _ _ => false }

/-- The movement pass as invoked by simulateWorld on two buffer
triples. -/
def mpOf (ext : Ext) (els : Elements) (cv : ColorVars)
    (readB writeB : BufTriple) (frameCount : ℕ) (W H : ℤ) (rnd : Rand)
    (k : ℕ) : WCtx × List Particle × ℕ :=
  movementPass ext els cv (readCtxOf readB W H (decide (frameCount % 2 = 0))) (staleOf writeB) rnd k

/-- A tick with no rules, no particle rules and no particles, over a
registry without PLANT, reduces to its movement pass. -/
theorem simulateWorld_pure (ext : Ext) (els : Elements) (cv : ColorVars)
    (readB writeB : BufTriple) (frameCount : ℕ) (W H : ℤ) (nid : ℤ)
    (rnd : Rand) (k : ℕ)
    (hH : ¬(H ≤ 0 ∨ W ≤ 0)) (hels : ¬ els = [])
    (hplant : findElem els ElementName.PLANT = none)
    (hps : (mpOf ext els cv readB writeB frameCount W H rnd k).2.1 = []) :
    simulateWorld ext els [] [] cv readB writeB [] frameCount W H nid rnd k =
      (({ g := (mpOf ext els cv readB writeB frameCount W H rnd k).1.newGrid, last := (mpOf ext els cv readB writeB frameCount W H rnd k).1.newLastMoveGrid, color := (mpOf ext els cv readB writeB frameCount W H rnd k).1.newColorGrid } : BufTriple),
       ([] : List Particle), nid, (mpOf ext els cv readB writeB frameCount W H rnd k).2.2) := by
  unfold simulateWorld
  rw [if_neg hH, if_neg hels]
  unfold mpOf readCtxOf staleOf at hps ⊢
  simp only [transformationPass_nil, handlePlantGrowth, hplant, hps,
    ether_nil, thunder_nil, fire_nil, assignIds, List.append_nil,
    List.nil_append]
  simp

/-! ## The denser-sinks scenario (claim C8) -/

/-- The registry for the sinking scenario: EMPTY, WATER and the denser
SAND. -/
def els8 : Elements := [(EMPTY, emptyDef), (WATER, waterDef), (SAND, sandDef)]

/-- The initial one-column world: WATER on top of SAND on top of
EMPTY. -/
def gridA8 : Grid := fun y x => if y = 0 ∧ x = 0 then { type := WATER } else if y = 1 ∧ x = 0 then { type := SAND } else { type := EMPTY }

/-- The initial active buffer triple. -/
def bufA8 : BufTriple := { g := gridA8, last := fun _ _ => MoveDirection.NONE, color := fun _ _ => "a" }

/-- The initial back buffer triple. -/
def bufB8 : BufTriple := { g := fun _ _ => { type := EMPTY }, last := fun _ _ => MoveDirection.NONE, color := fun _ _ => "b" }

/-- The initial scene state of the scenario. -/
def s08 : SceneState := { bufA := bufA8, bufB := bufB8, activeA := true, particles := [], frameCount := 0, nextId := 0, k := 0 }

set_option maxHeartbeats 2000000 in
/-- Tick one of the scenario, pointwise, for every random stream: SAND
falls to the bottom, WATER stays, no particles, one draw consumed. -/
theorem tick1_pt (rnd : Rand) (k : ℕ) :
    ((mpOf extC els8 cvNone bufA8 bufB8 0 1 3 rnd k).1.newGrid 0 0 = { type := WATER } ∧
     (mpOf extC els8 cvNone bufA8 bufB8 0 1 3 rnd k).1.newGrid 1 0 = { type := EMPTY } ∧
     (mpOf extC els8 cvNone bufA8 bufB8 0 1 3 rnd k).1.newGrid 2 0 = { type := SAND }) ∧
    (mpOf extC els8 cvNone bufA8 bufB8 0 1 3 rnd k).2.1 = [] ∧
    (mpOf extC els8 cvNone bufA8 bufB8 0 1 3 rnd k).2.2 = k + 1 := by
  simp [mpOf, readCtxOf, staleOf, movementPass, moveCell, behaviorsMap,
    handleGranular, Granular.main, Granular.down, Granular.diag,
    Granular.diagAttempt, side_noMove, copyThrough, WCtx.putCell,
    WCtx.putColor, WCtx.putLast, WCtx.putMoved, setG, setS, setD, setB,
    findElem, swapOK, emptyColor, els8, gridA8, bufA8, bufB8, waterDef,
    sandDef, emptyDef, List.range_succ]

set_option maxHeartbeats 2000000 in
/-- Tick two of the scenario over any read buffer that matches tick one
pointwise: WATER falls into the hole above the settled SAND. -/
theorem tick2_pt (rnd : Rand) (k2 : ℕ) (G : Grid)
    (L : ℤ → ℤ → MoveDirection) (C : ℤ → ℤ → String)
    (h00 : G 0 0 = { type := WATER }) (h10 : G 1 0 = { type := EMPTY })
    (h20 : G 2 0 = { type := SAND }) :
    ((mpOf extC els8 cvNone ({ g := G, last := L, color := C } : BufTriple) bufA8 1 1 3 rnd k2).1.newGrid 1 0 = { type := WATER } ∧
     (mpOf extC els8 cvNone ({ g := G, last := L, color := C } : BufTriple) bufA8 1 1 3 rnd k2).1.newGrid 2 0 = { type := SAND }) ∧
    (mpOf extC els8 cvNone ({ g := G, last := L, color := C } : BufTriple) bufA8 1 1 3 rnd k2).2.1 = [] := by
  simp [mpOf, readCtxOf, staleOf, movementPass, moveCell, behaviorsMap,
    handleGranular, Granular.main, Granular.down, Granular.diag,
    Granular.diagAttempt, side_noMove, copyThrough, WCtx.putCell,
    WCtx.putColor, WCtx.putLast, WCtx.putMoved, setG, setS, setD, setB,
    findElem, swapOK, emptyColor, els8, gridA8, bufA8, bufB8, waterDef,
    sandDef, emptyDef, List.range_succ, h00, h10, h20]

set_option maxHeartbeats 1000000 in
/-- The two-tick scenario: for every random stream, after two ticks the
active buffer holds WATER at (0,1) and SAND at (0,2). -/
theorem denser_sinks_scenario : ∀ rnd : Rand,
    ((runTick extC els8 [] [] cvNone 1 3 rnd
      (runTick extC els8 [] [] cvNone 1 3 rnd s08)).activeBuf.g 1 0).type = WATER ∧
    ((runTick extC els8 [] [] cvNone 1 3 rnd
      (runTick extC els8 [] [] cvNone 1 3 rnd s08)).activeBuf.g 2 0).type = SAND := by
  intro rnd
  have t1 := tick1_pt rnd 0
  have t2 := tick2_pt rnd ((mpOf extC els8 cvNone bufA8 bufB8 0 1 3 rnd 0).2.2)
    ((mpOf extC els8 cvNone bufA8 bufB8 0 1 3 rnd 0).1.newGrid)
    ((mpOf extC els8 cvNone bufA8 bufB8 0 1 3 rnd 0).1.newLastMoveGrid)
    ((mpOf extC els8 cvNone bufA8 bufB8 0 1 3 rnd 0).1.newColorGrid)
    t1.1.1 t1.1.2.1 t1.1.2.2
  unfold runTick
  simp only [s08, reduceIte]
  rw [simulateWorld_pure extC els8 cvNone bufA8 bufB8 0 1 3 0 rnd 0
    (by decide) (by decide) rfl t1.2.1]
  simp only [Bool.not_true, Bool.false_eq_true, reduceIte]
  rw [simulateWorld_pure extC els8 cvNone
    ({ g := (mpOf extC els8 cvNone bufA8 bufB8 0 1 3 rnd 0).1.newGrid, last := (mpOf extC els8 cvNone bufA8 bufB8 0 1 3 rnd 0).1.newLastMoveGrid, color := (mpOf extC els8 cvNone bufA8 bufB8 0 1 3 rnd 0).1.newColorGrid } : BufTriple)
    bufA8 1 1 3 0 rnd ((mpOf extC els8 cvNone bufA8 bufB8 0 1 3 rnd 0).2.2)
    (by decide) (by decide) rfl t2.2]
  simp only [SceneState.activeBuf]
  simp [t2.1.1, t2.1.2]

/-- Pointwise reading of a single grid update at the written point. -/
theorem setG_self (g : Grid) (y x : ℤ) (c : Cell) : setG g y x c y x = c := by
  simp [setG]

/-- Pointwise reading of a single grid update away from the written
point. -/
theorem setG_other (g : Grid) (y x : ℤ) (c : Cell) (y2 x2 : ℤ)
    (h : ¬(y2 = y ∧ x2 = x)) : setG g y x c y2 x2 = g y2 x2 := by
  simp [setG, h]

/-- The down-swap behaviour of handleGranular: a fluid cell above a
not-yet-moved, strictly less dense, fluid liquid swaps with it, the upper
coordinate inheriting the last-move of the displaced liquid; no random
draw is consumed. -/
theorem granular_swap (els : Elements) (r : RCtx) (w : WCtx) (x y : ℤ)
    (chained : Bool) (rnd : Rand) (k : ℕ) (selfDef td : Element)
    (fl : Fluidity)
    (hels : ¬ els = [])
    (hfe : findElem els (r.grid y x).type = some selfDef)
    (hfl : selfDef.fluidity = some fl)
    (hb : y + 1 < r.height)
    (hm : w.moved (y + 1) x = false)
    (hne : (r.grid (y + 1) x).type ≠ ElementName.EMPTY)
    (hte : findElem els (r.grid (y + 1) x).type = some td)
    (htf : td.fluidity.isSome = true)
    (hd : selfDef.density > td.density)
    (hls : td.state = some ElemState.liquid) :
    (handleGranular els r w x y chained rnd k).2 = k ∧
    (handleGranular els r w x y chained rnd k).1.newGrid y x = r.grid (y + 1) x ∧
    (handleGranular els r w x y chained rnd k).1.newGrid (y + 1) x = r.grid y x ∧
    (handleGranular els r w x y chained rnd k).1.newLastMoveGrid y x = r.lastMoveGrid (y + 1) x ∧
    (handleGranular els r w x y chained rnd k).1.newLastMoveGrid (y + 1) x = MoveDirection.NONE ∧
    (handleGranular els r w x y chained rnd k).1.moved y x = true ∧
    (handleGranular els r w x y chained rnd k).1.moved (y + 1) x = true := by
  have hsw : swapOK els selfDef (r.grid (y + 1) x) := by
    unfold swapOK
    rw [hte]
    exact ⟨htf, hd, hls⟩
  have hy1 : ¬((y : ℤ) = y + 1 ∧ (x : ℤ) = x) := by
    intro hc
    omega
  have hy2 : ¬((y + 1 : ℤ) = y ∧ (x : ℤ) = x) := by
    intro hc
    omega
  unfold handleGranular
  rw [if_neg hels]
  simp only [hfe, hfl]
  rw [if_neg (by tauto : ¬(y + 1 < r.height ∧ (r.grid (y + 1) x).type ≠ ElementName.EMPTY ∧ ¬ swapOK els selfDef (r.grid (y + 1) x) ∧ selfDef.state ≠ some ElemState.liquid))]
  unfold Granular.main Granular.down
  rw [if_pos ⟨hb, hm⟩, if_neg hne, if_pos hsw]
  simp [WCtx.putCell, WCtx.putColor, WCtx.putLast, WCtx.putMoved, setG,
    setS, setD, setB, hy1, hy2]

/-- Claim C8: when the cell directly below a fluid cell is a
lower-density fluid liquid and has not moved, handleGranular swaps the
two cells in the write buffer, the upper coordinate inheriting the
last-move value of the displaced liquid; and in the one-column world
WATER over SAND over EMPTY, two ticks leave WATER at (0,1) and SAND at
(0,2) for every random stream. -/
theorem C8_denser_sinks (els : Elements) (r : RCtx) (w : WCtx) (x y : ℤ)
    (chained : Bool) (rnd : Rand) (k : ℕ) (selfDef td : Element)
    (fl : Fluidity)
    (hels : ¬ els = [])
    (hfe : findElem els (r.grid y x).type = some selfDef)
    (hfl : selfDef.fluidity = some fl)
    (hb : y + 1 < r.height)
    (hm : w.moved (y + 1) x = false)
    (hne : (r.grid (y + 1) x).type ≠ ElementName.EMPTY)
    (hte : findElem els (r.grid (y + 1) x).type = some td)
    (htf : td.fluidity.isSome = true)
    (hd : selfDef.density > td.density)
    (hls : td.state = some ElemState.liquid) :
    ((handleGranular els r w x y chained rnd k).1.newGrid y x = r.grid (y + 1) x ∧
     (handleGranular els r w x y chained rnd k).1.newGrid (y + 1) x = r.grid y x ∧
     (handleGranular els r w x y chained rnd k).1.newLastMoveGrid y x = r.lastMoveGrid (y + 1) x) ∧
    (∀ rnd2 : Rand,
      ((runTick extC els8 [] [] cvNone 1 3 rnd2
        (runTick extC els8 [] [] cvNone 1 3 rnd2 s08)).activeBuf.g 1 0).type = WATER ∧
      ((runTick extC els8 [] [] cvNone 1 3 rnd2
        (runTick extC els8 [] [] cvNone 1 3 rnd2 s08)).activeBuf.g 2 0).type = SAND) := by
  have h := granular_swap els r w x y chained rnd k selfDef td fl hels hfe
    hfl hb hm hne hte htf hd hls
  exact ⟨⟨h.2.1, h.2.2.1, h.2.2.2.1⟩, denser_sinks_scenario⟩

/-- The one-column read context used by the C8 witness: SAND above
WATER. -/
def gridW8 : Grid := fun y x => if y = 0 ∧ x = 0 then { type := SAND } else if y = 1 ∧ x = 0 then { type := WATER } else { type := EMPTY }

/-- The read context of the C8 witness world. -/
def rW8 : RCtx := { grid := gridW8, lastMoveGrid := fun _ _ => MoveDirection.DOWN_LEFT, colorGrid := fun _ _ => "c", width := 1, height := 2, scanRight := true }

/-- The stale write context of the C8 witness world. -/
def wW8 : WCtx := { newGrid := fun _ _ => { type := EMPTY }, newLastMoveGrid := fun _ _ => MoveDirection.NONE, newColorGrid := fun _ _ => "s", moved := fun _ _ => false }

unseal Rat.add Rat.mul Rat.sub Rat.inv in
/-- Witness for claim C8 at a concrete input: SAND at (0,0) swaps with
the WATER below, inheriting its last-move. -/
theorem C8_denser_sinks_witness :
    (handleGranular els8 rW8 wW8 0 0 false rndHalf 0).1.newGrid 0 0 = rW8.grid 1 0 ∧
    (handleGranular els8 rW8 wW8 0 0 false rndHalf 0).1.newGrid 1 0 = rW8.grid 0 0 ∧
    (handleGranular els8 rW8 wW8 0 0 false rndHalf 0).1.newLastMoveGrid 0 0 = rW8.lastMoveGrid 1 0 :=
  (C8_denser_sinks els8 rW8 wW8 0 0 false rndHalf 0 sandDef waterDef
    { resistance := 1/10, spread := 1/10 } (by decide) (by decide)
    (by decide) (by decide) (by decide) (by decide) (by decide)
    (by decide) (by decide) (by decide)).1

/-! ## Claim C1: buffer completeness after the movement pass -/

/-- The registry for the crystal scenarios. -/
def elsC1 : Elements := [(EMPTY, emptyDef), (CRYSTAL, crystalDef)]

/-- A one-cell world holding a CRYSTAL. -/
def gridC1 : Grid := fun _ _ => { type := CRYSTAL }

/-- The read context of the C1 world. -/
def rC1 : RCtx := { grid := gridC1, lastMoveGrid := fun _ _ => MoveDirection.NONE, colorGrid := fun _ _ => "c", width := 1, height := 1, scanRight := true }

/-- The stale write context of the C1 world: the back buffer still holds
a SAND cell from an earlier tick. -/
def staleC1 : WCtx := { newGrid := fun _ _ => { type := SAND }, newLastMoveGrid := fun _ _ => MoveDirection.NONE, newColorGrid := fun _ _ => "s", moved := fun _ _ => false }

unseal Rat.add Rat.mul Rat.sub Rat.inv in
/-- Claim C1 (code bug): after the movement pass, the coordinate of a
CRYSTAL that neither emitted nor moved has NOT been written: the write
buffer still holds the stale SAND of an earlier tick while the read
buffer holds the CRYSTAL, so the buffer-completeness invariant is
violated. -/
theorem C1_crystal_cell_left_stale :
    ((movementPass extC elsC1 cvNone rC1 staleC1 rndHalf 0).1.newGrid 0 0).type = SAND ∧
    (rC1.grid 0 0).type = CRYSTAL := by decide

/-! ## Claim C2: particle life decrement -/

/-- An all-EMPTY buffer triple. -/
def bufE : BufTriple := { g := fun _ _ => { type := EMPTY }, last := fun _ _ => MoveDirection.NONE, color := fun _ _ => "e" }

/-- A SOIL debris particle as produced by an explosion: life 100. -/
def pS : Particle := { id := 7, px := 1/2, py := 1/2, vx := 1, vy := 2, type := SOIL, life := 100 }

unseal Rat.add Rat.mul Rat.sub Rat.inv in
/-- Claim C2 (code bug): a material (SOIL) particle passes a whole tick
of simulateWorld completely unchanged: no pass decrements its life (or
moves it), so it never dies. -/
theorem C2_material_particle_unchanged :
    (simulateWorld extC elsC1 [] [] cvNone bufE bufE [pS] 0 1 1 0 rndHalf 0).2.1 = [pS] ∧
    pS.life = 100 := by decide

/-! ## Claim C3: crystal ether storage -/

/-- A one-cell world holding a CRYSTAL with etherStorage one. -/
def gridC3 : Grid := fun _ _ => { type := CRYSTAL, etherStorage := some 1 }

/-- The read context of the C3 world. -/
def rC3 : RCtx := { grid := gridC3, lastMoveGrid := fun _ _ => MoveDirection.NONE, colorGrid := fun _ _ => "c", width := 1, height := 1, scanRight := true }

/-- The stale write context of the C3 world, holding the same crystal
cell. -/
def staleC3 : WCtx := { newGrid := gridC3, newLastMoveGrid := fun _ _ => MoveDirection.NONE, newColorGrid := fun _ _ => "c", moved := fun _ _ => false }

unseal Rat.add Rat.mul Rat.sub Rat.inv in
/-- Counterexample to claim C3: on a stream where the emission roll and
the claimed 95 percent decrement roll both succeed, the crystal with
etherStorage one emits an ETHER particle yet keeps etherStorage one and
does not dissolve: the behaviour maintains no storage counter at all. -/
theorem C3_storage_counterexample :
    ((handleCrystalBehavior extC elsC1 rC3 staleC3 0 0 rndZero 0).1.newGrid 0 0) = { type := CRYSTAL, etherStorage := some 1 } ∧
    ((handleCrystalBehavior extC elsC1 rC3 staleC3 0 0 rndZero 0).2.1).isSome = true ∧
    rndZero 0 < 1/1000 ∧ rndZero 1 < 19/20 := by decide

/-- Claim C3 as amended: the crystal behaviour emits an ETHER particle
(life 150, sentinel id) exactly when the draw is below 0.001, and its
whole grid effect is the chained granular fall: no ether storage is
initialised, decremented or dissolved. -/
theorem C3_no_storage_decrement (ext : Ext) (els : Elements) (r : RCtx)
    (w : WCtx) (x y : ℤ) (rnd : Rand) (k : ℕ)
    (h : (w.newGrid y x).type ≠ ElementName.EMPTY) :
    ((handleCrystal ext x y rnd k).1.isSome = true ↔ rnd k < 1/1000) ∧
    (∀ p, (handleCrystal ext x y rnd k).1 = some p →
      p.type = ElementName.ETHER ∧ p.life = 150 ∧ p.id = -1) ∧
    (handleCrystalBehavior ext els r w x y rnd k).1 =
      (handleGranular els r w x y true rnd (handleCrystal ext x y rnd k).2).1 := by
  refine ⟨?_, ?_, ?_⟩
  · unfold handleCrystal
    by_cases hc : rnd k < 1/1000
    · rw [if_pos hc]
      simpa using hc
    · rw [if_neg hc]
      simpa using hc
  · intro p hp
    unfold handleCrystal at hp
    by_cases hc : rnd k < 1/1000
    · rw [if_pos hc] at hp
      simp only [Option.some.injEq] at hp
      simp [← hp]
    · rw [if_neg hc] at hp
      simp at hp
  · simp [handleCrystalBehavior, h]

unseal Rat.add Rat.mul Rat.sub Rat.inv in
/-- Witness for the amended claim C3 at a concrete input. -/
theorem C3_no_storage_decrement_witness :
    ((handleCrystal extC 0 0 rndZero 0).1.isSome = true ↔ rndZero 0 < 1/1000) ∧
    (∀ p, (handleCrystal extC 0 0 rndZero 0).1 = some p →
      p.type = ElementName.ETHER ∧ p.life = 150 ∧ p.id = -1) ∧
    (handleCrystalBehavior extC elsC1 rC3 staleC3 0 0 rndZero 0).1 =
      (handleGranular elsC1 rC3 staleC3 0 0 true rndZero (handleCrystal extC 0 0 rndZero 0).2).1 :=
  C3_no_storage_decrement extC elsC1 rC3 staleC3 0 0 rndZero 0 (by decide)


open ElementName

def elsS : Elements := [(EMPTY, emptyDef), (SOIL, soilDef)]
def gC7 : Grid := fun _ _ => { type := SOIL, counter := some 5 }
def colS : ℤ → ℤ → String := fun _ _ => "x"
def rules7 : List TransformationRule := [{ fromE := WATER, toE := MUD, probability := 1, threshold := 10, conditions := [] }]
def rules7b : List TransformationRule := [{ fromE := SOIL, toE := MUD, probability := 1, threshold := 10, conditions := [RuleCondition.surrounding WATER (some 1) none] }]

unseal Rat.add Rat.mul Rat.sub Rat.inv in
/-- C7 counterexample: with a rule set whose single rule has from = WATER,
a SOIL cell carrying a non-zero counter keeps it unchanged through the
transformation handler, because the applicable-rules early return (the
newGrid[y][x] = cell shortcut of physics.ts) fires before any counter
reset: the claim says the counter is reset even when no rule has from
equal to the cell type. -/
theorem C7_counter_persists :
    ((handleTransformations extC elsS rules7 cvNone gC7 colS 0 0 1 1 0 rndHalf 0).1 0 0).counter = some 5 ∧
    rules7.filter (fun ru => ru.fromE = (gC7 0 0).type) = [] := by decide

/-- C7 amended: the counter reset happens only when at least one rule has
from equal to the cell type.  When the applicable list is empty
handleTransformations is the identity on the cell (the counter is kept);
when it is non-empty but no applicable rule has all conditions met, a
positive counter is reset to zero. -/
theorem C7_reset_needs_applicable (ext : Ext) (els : Elements)
    (rules : List TransformationRule) (cv : ColorVars) (g : Grid)
    (c : ℤ → ℤ → String) (x y W H : ℤ) (nid : ℤ) (rnd : Rand) (k : ℕ) :
    (rules.filter (fun ru => ru.fromE = (g y x).type) = [] →
      handleTransformations ext els rules cv g c x y W H nid rnd k =
        (g, c, [], nid, k)) ∧
    (∀ ru rest, rules.filter (fun ru2 => ru2.fromE = (g y x).type) = ru :: rest →
      (rules.filter (fun ru2 => ru2.fromE = (g y x).type)).filter
        (fun ru2 => ru2.conditions.all (checkCondition els g x y W H)) = [] →
      0 < (g y x).counter.getD 0 →
      handleTransformations ext els rules cv g c x y W H nid rnd k =
        (setG g y x { (g y x) with counter := some 0 }, c, [], nid, k)) := by
  constructor
  · intro h
    simp only [handleTransformations]
    rw [h]
    simp
  · intro ru rest happ hmet hcnt
    simp only [handleTransformations]
    rw [happ] at hmet ⊢
    rw [if_neg (by simp : ¬(ru :: rest = [])), hmet, if_pos hcnt]

unseal Rat.add Rat.mul Rat.sub Rat.inv in
/-- C7 witness: both parts of the amended theorem evaluated on 1x1 SOIL
worlds, one with no applicable rule (counter kept) and one with an
applicable rule whose surrounding-WATER condition fails (counter
zeroed). -/
theorem C7_reset_needs_applicable_witness :
    (handleTransformations extC elsS rules7 cvNone gC7 colS 0 0 1 1 0 rndHalf 0 = (gC7, colS, [], 0, 0)) ∧
    (handleTransformations extC elsS rules7b cvNone gC7 colS 0 0 1 1 0 rndHalf 0 = (setG gC7 0 0 { (gC7 0 0) with counter := some 0 }, colS, [], 0, 0)) :=
  ⟨(C7_reset_needs_applicable extC elsS rules7 cvNone gC7 colS 0 0 1 1 0 rndHalf 0).1 (by decide),
   (C7_reset_needs_applicable extC elsS rules7b cvNone gC7 colS 0 0 1 1 0 rndHalf 0).2
     { fromE := SOIL, toE := MUD, probability := 1, threshold := 10, conditions := [RuleCondition.surrounding WATER (some 1) none] }
     [] (by decide) (by decide) (by decide)⟩

def elsP : Elements := [(EMPTY, emptyDef), (PLANT, plantDef), (OIL, oilDef)]
def gStem : Grid := fun _ _ =>
  { type := PLANT
    plantMode := some PlantMode.stem
    decayCounter := some 1000 }
def gWith : Grid := fun _ _ =>
  { type := PLANT
    plantMode := some PlantMode.withered
    oilCounter := some 1201 }

unseal Rat.add Rat.mul Rat.sub Rat.inv in
/-- C5 counterexample: a stem PLANT cell with decay counter 1000 stays a
stem (counter 1001) on a zero random stream although every threshold of
the form 500 times (0.8 + 0.4 xi) is below 601, and a withered PLANT
cell with oil counter 1201 becomes OIL although every threshold of the
form 2000 times (0.8 + 0.4 xi) is at least 1600: the decay threshold of
the code is 2000-based and the oil threshold 1500-based, the reverse
magnitudes of the claim. -/
theorem C5_thresholds_counterexample :
    (((handlePlantGrowth elsP cvNone gStem colS 1 1 rndZero 0).1 0 0).plantMode = some PlantMode.stem ∧
     ((handlePlantGrowth elsP cvNone gStem colS 1 1 rndZero 0).1 0 0).decayCounter = some 1001) ∧
    ((handlePlantGrowth elsP cvNone gWith colS 1 1 rndZero 0).1 0 0).type = OIL := by decide

theorem setG_suby (g : Grid) (y x : ℤ) (c : Cell) :
    setG g (y - 1) x c y x = g y x :=
  setG_other g (y - 1) x c y x (by intro h; omega)

theorem setG_left (g : Grid) (y x : ℤ) (c : Cell) :
    setG g y (x + -1) c y x = g y x :=
  setG_other g y (x + -1) c y x (by intro h; omega)

theorem setG_right (g : Grid) (y x : ℤ) (c : Cell) :
    setG g y (x + 1) c y x = g y x :=
  setG_other g y (x + 1) c y x (by intro h; omega)

theorem plantStemUp_fst (cv : ColorVars) (pe : Element) (g2 : Grid)
    (colorG : ℤ → ℤ → String) (x y : ℤ) (rnd : Rand) (k2 : ℕ) :
    (plantStemUp cv pe g2 colorG x y rnd k2).1 y x = g2 y x := by
  simp only [plantStemUp]
  split_ifs <;> simp [setG_suby]

theorem plantSideStep_fst (cv : ColorVars) (pc : PartColors) (W x y : ℤ)
    (rnd : Rand) (acc : Grid × (ℤ → ℤ → String) × ℕ) (dir : ℤ)
    (hd : dir ≠ 0) :
    (plantSideStep cv pc W x y rnd acc dir).1 y x = acc.1 y x := by
  obtain ⟨ga, ca, ka⟩ := acc
  simp only [plantSideStep]
  split_ifs <;> simp [setG, hd]

theorem plantSpread_fst (els : Elements) (cv : ColorVars) (pe : Element)
    (g2 : Grid) (colorG : ℤ → ℤ → String) (W H x y : ℤ) (rnd : Rand)
    (k2 : ℕ) :
    (plantSpread els cv pe g2 colorG W H x y rnd k2).1 y x = g2 y x := by
  simp only [plantSpread]
  split_ifs <;> simp [setG_left, setG_right]

/-- C5 amended: a withered PLANT cell becomes OIL exactly when its
incremented oil counter exceeds 1500 times (0.8 + 0.4 xi), and a living
stem or ground-cover PLANT cell becomes withered exactly when its
incremented decay counter exceeds 2000 times (0.8 + 0.4 xi); below
threshold the mode is kept and the counter stored incremented. -/
theorem C5_thresholds (els : Elements) (cv : ColorVars) (pe : Element)
    (pc : PartColors) (g : Grid) (colorG : ℤ → ℤ → String) (W H x y : ℤ)
    (rnd : Rand) (k : ℕ) (h1 : (g y x).type = PLANT) :
    ((g y x).plantMode = some PlantMode.withered →
      (((g y x).oilCounter.getD 0 + 1 > 1500 * (4 / 5 + rnd k * (2 / 5)) →
        (plantGrowthCell els cv pe pc g colorG W H x y rnd k).1 y x =
          { type := OIL }) ∧
       (¬((g y x).oilCounter.getD 0 + 1 > 1500 * (4 / 5 + rnd k * (2 / 5))) →
        (plantGrowthCell els cv pe pc g colorG W H x y rnd k).1 y x =
          { (g y x) with type := PLANT
                         plantMode := some PlantMode.withered
                         oilCounter := some ((g y x).oilCounter.getD 0 + 1) }))) ∧
    ((g y x).plantMode = some PlantMode.stem ∨
     (g y x).plantMode = some PlantMode.ground_cover →
      (((g y x).decayCounter.getD 0 + 1 > 2000 * (4 / 5 + rnd k * (2 / 5)) →
        (plantGrowthCell els cv pe pc g colorG W H x y rnd k).1 y x =
          { type := PLANT
            plantMode := some PlantMode.withered
            oilCounter := some 0 }) ∧
       (¬((g y x).decayCounter.getD 0 + 1 > 2000 * (4 / 5 + rnd k * (2 / 5))) →
        ((plantGrowthCell els cv pe pc g colorG W H x y rnd k).1 y x).plantMode =
          (g y x).plantMode ∧
        ((plantGrowthCell els cv pe pc g colorG W H x y rnd k).1 y x).decayCounter =
          some ((g y x).decayCounter.getD 0 + 1) ∧
        ((plantGrowthCell els cv pe pc g colorG W H x y rnd k).1 y x).type =
          PLANT))) := by
  constructor
  · intro hw
    constructor
    · intro hoc
      simp only [plantGrowthCell]
      rw [if_neg (by simp [h1] : ¬((g y x).type ≠ ElementName.PLANT)),
          if_pos hw, if_pos hoc]
      simp [setG_self]
    · intro hoc
      simp only [plantGrowthCell]
      rw [if_neg (by simp [h1] : ¬((g y x).type ≠ ElementName.PLANT)),
          if_pos hw, if_neg hoc]
      simp [setG_self]
  · intro hm
    have hnw : ¬((g y x).plantMode = some PlantMode.withered) := by
      rcases hm with h | h <;> simp [h]
    constructor
    · intro hdc
      simp only [plantGrowthCell]
      rw [if_neg (by simp [h1] : ¬((g y x).type ≠ ElementName.PLANT)),
          if_neg hnw, if_pos hm, if_pos hdc]
      simp [setG_self]
    · intro hdc
      simp only [plantGrowthCell]
      rw [if_neg (by simp [h1] : ¬((g y x).type ≠ ElementName.PLANT)),
          if_neg hnw, if_pos hm, if_neg hdc]
      by_cases hg : (g y x).counter.getD 0 + 1 < 100
      · rw [if_pos hg]
        simp [setG_self, h1]
      · rw [if_neg hg]
        rcases hm with hs | hgc
        · rw [if_pos hs]
          rw [plantSideStep_fst, plantSideStep_fst, plantStemUp_fst]
          · simp [setG_self, h1]
          · decide
          · decide
        · rw [if_neg (by simp [hgc] : ¬((g y x).plantMode = some PlantMode.stem))]
          rw [plantSpread_fst]
          simp [setG_self, h1]

unseal Rat.add Rat.mul Rat.sub Rat.inv in
/-- C5 witness: the amended theorem evaluated at a stem cell with decay
counter 1000 (stays a stem) and a withered cell with oil counter 1201
(becomes OIL) on the zero random stream. -/
theorem C5_thresholds_witness :
    (gStem 0 0).type = PLANT ∧
    ((plantGrowthCell elsP cvNone plantDef { withered := "#886600", leaf := "#00AA00", flower := "#FF00AA" } gStem colS 1 1 0 0 rndZero 0).1 0 0).plantMode = some PlantMode.stem ∧
    ((plantGrowthCell elsP cvNone plantDef { withered := "#886600", leaf := "#00AA00", flower := "#FF00AA" } gWith colS 1 1 0 0 rndZero 0).1 0 0).type = OIL :=
  ⟨rfl,
   (((C5_thresholds elsP cvNone plantDef { withered := "#886600", leaf := "#00AA00", flower := "#FF00AA" } gStem colS 1 1 0 0 rndZero 0 rfl).2 (Or.inl rfl)).2 (by decide)).1,
   ((C5_thresholds elsP cvNone plantDef { withered := "#886600", leaf := "#00AA00", flower := "#FF00AA" } gWith colS 1 1 0 0 rndZero 0 rfl).1 rfl).1 (by decide) ▸ rfl⟩


def rules4 : List ParticleInteractionRule :=
  [{ particle := ETHER, fromE := SOIL, toE := CRYSTAL, probability := 1 }]
def gSoil4 : Grid := fun _ _ => { type := SOIL }
def pA4 : Particle :=
  { id := 1, px := 1/2, py := 1/2, vx := 0, vy := 0, type := ETHER, life := 10 }
def pB4 : Particle :=
  { id := 2, px := 1/2, py := 1/2, vx := 0, vy := 0, type := ETHER, life := 10 }
def pC4 : Particle :=
  { id := 3, px := 3/2, py := 1/2, vx := 0, vy := 0, type := ETHER, life := 10 }

unseal Rat.add Rat.mul Rat.sub Rat.inv in
/-- C4 counterexample: two ETHER particles share the centre bucket of a
1x1 SOIL world whose rule turns SOIL into CRYSTAL with probability 1;
the first triggers the formation, yet the second is NOT consumed (it
leaves the pass alive with life 9) and the written CRYSTAL records
ether_storage 1, not 2: the spatial hash scans only the eight
surrounding buckets and skips the centre bucket that holds the trigger
itself. -/
theorem C4_center_bucket_not_consumed :
    ((handleEtherParticles rules4 [pA4, pB4] gSoil4 1 1 rndHalf 0).1.map
       Particle.life = [0, 9] ∧
     (handleEtherParticles rules4 [pA4, pB4] gSoil4 1 1 rndHalf 0).1.map
       Particle.id = [1, 2]) ∧
    ((handleEtherParticles rules4 [pA4, pB4] gSoil4 1 1 rndHalf 0).2.1 0 0) =
      { type := CRYSTAL, etherStorage := some 1 } ∧
    (⌊pB4.px⌋ = ⌊pA4.px⌋ ∧ ⌊pB4.py⌋ = ⌊pA4.py⌋) := by decide

/-- C4 amended: with pairwise distinct particle ids, the consumption scope
of a CRYSTAL formation at (cx, cy) triggered by particle pid is exactly
the living ETHER particles other than the trigger whose floored position
lies in one of the EIGHT surrounding cells: particles bucketed at the
centre cell itself, where the trigger sits, are never consumed. -/
theorem C4_consume_scope (living : List Particle) (pid cx cy : ℤ)
    (hnd : (living.map Particle.id).Nodup) :
    (∀ q ∈ bucketOf living cx cy, q.id ∉ consumeIds living pid cx cy) ∧
    (∀ q ∈ living, (q.id ∈ consumeIds living pid cx cy ↔
      q.type = ElementName.ETHER ∧ q.id ≠ pid ∧
      ∃ off ∈ mooreOffsets, ⌊q.px⌋ = cx + off.2 ∧ ⌊q.py⌋ = cy + off.1)) := by
  have hmem : ∀ q ∈ living, (q.id ∈ consumeIds living pid cx cy ↔
      q.type = ElementName.ETHER ∧ q.id ≠ pid ∧
      ∃ off ∈ mooreOffsets, ⌊q.px⌋ = cx + off.2 ∧ ⌊q.py⌋ = cy + off.1) := by
    intro q hq
    constructor
    · intro hin
      simp only [consumeIds, List.mem_map, List.mem_flatMap,
        List.mem_filter, bucketOf, decide_eq_true_eq] at hin
      obtain ⟨q2, ⟨off, hoff, ⟨hq2l, hq2e, hq2x, hq2y⟩, hq2pid⟩, hq2id⟩ := hin
      have : q2 = q := List.inj_on_of_nodup_map hnd hq2l hq hq2id
      subst this
      exact ⟨hq2e, hq2pid, off, hoff, hq2x, hq2y⟩
    · rintro ⟨he, hpid, off, hoff, hx, hy⟩
      simp only [consumeIds, List.mem_map, List.mem_flatMap,
        List.mem_filter, bucketOf, decide_eq_true_eq]
      exact ⟨q, ⟨off, hoff, ⟨hq, he, hx, hy⟩, hpid⟩, rfl⟩
  refine ⟨?_, hmem⟩
  intro q hq hin
  simp only [bucketOf, List.mem_filter, decide_eq_true_eq] at hq
  obtain ⟨hql, hqe, hqx, hqy⟩ := hq
  obtain ⟨-, -, off, hoff, hx, hy⟩ := (hmem q hql).1 hin
  have h2 : off.2 = 0 := by omega
  have h1 : off.1 = 0 := by omega
  have : ((0 : ℤ), (0 : ℤ)) ∈ mooreOffsets := by
    have := hoff
    rwa [show off = ((0 : ℤ), (0 : ℤ)) from Prod.ext h1 h2] at this
  exact absurd this (by decide)

unseal Rat.add Rat.mul Rat.sub Rat.inv in
/-- C4 witness: in the two-particle centre-bucket world the second
particle is not consumed by a formation triggered by the first, while a
third particle one cell to the right is. -/
theorem C4_consume_scope_witness :
    pB4.id ∉ consumeIds [pA4, pB4] pA4.id 0 0 ∧
    pC4.id ∈ consumeIds [pA4, pB4, pC4] pA4.id 0 0 :=
  ⟨(C4_consume_scope [pA4, pB4] pA4.id 0 0 (by decide)).1 pB4 (by decide),
   ((C4_consume_scope [pA4, pB4, pC4] pA4.id 0 0 (by decide)).2 pC4
     (by decide)).mpr
     ⟨by decide, by decide, ((0 : ℤ), (1 : ℤ)), by decide, by decide, by decide⟩⟩


def pF1 : Particle :=
  { id := 1, px := 1/2, py := 1/2, vx := 0, vy := 0, type := FIRE, life := 1 }
def pF2 : Particle :=
  { id := 1, px := 1/2, py := 1/2, vx := 0, vy := 0, type := FIRE, life := 5 }
def gOil1 : Grid := fun _ _ => { type := OIL }
def gOilW : Grid := fun y x =>
  if y = 0 ∧ x = 1 then { type := WATER } else { type := OIL }

unseal Rat.add Rat.mul Rat.sub Rat.inv in
/-- C10 counterexample: a FIRE particle over OIL whose life expires
naturally (life 1, no WATER around) is removed WITHOUT burning the cell
(the OIL survives), while the same particle extinguished by adjacent
WATER (life 5, WATER one cell to the right) does run the end-of-life
burn and leaves the OIL cell EMPTY: water extinguishment is NOT
"exactly as if the life had expired naturally", because natural expiry
returns before the burn block. -/
theorem C10_natural_expiry_skips_burn :
    ((handleFireParticles [pF1] gOil1 1 1 2 rndHalf 0).1 = [] ∧
     (handleFireParticles [pF1] gOil1 1 1 2 rndHalf 0).2.1 0 0 =
       { type := OIL }) ∧
    ((handleFireParticles [pF2] gOilW 2 1 2 rndHalf 0).1 = [] ∧
     (handleFireParticles [pF2] gOilW 2 1 2 rndHalf 0).2.1 0 0 =
       { type := EMPTY } ∧
     fireTransformationRules OIL = some FIRE) := by decide

/-- C10 amended: a FIRE particle that still has life after the decrement
and is extinguished by WATER in its 3 by 3 block runs the end-of-life
burn before removal: the particle is dropped from the output, the cell
under it is rewritten by the fire transformation table (a FIRE target
becoming EMPTY), and when a flammable neighbour exists and the spread
roll beats 0.65 one new FIRE particle with life in [80, 120) appears at
a flammable neighbour; a particle whose life expired naturally is
instead removed with no burn at all (its whole effect is at most the
crystal scan of the first row). -/
theorem C10_water_extinguish_burns (W H : ℤ) (rnd : Rand) (acc : FireAcc)
    (p : Particle) (hr : RandRange rnd) :
    (firstCrystalIn [(-1, -1), (-1, 0), (-1, 1)] acc.g W H ⌊p.px⌋ ⌊p.py⌋ =
        none → p.life - 1 ≤ 0 → fireStep W H rnd acc p = acc) ∧
    (firstCrystal acc.g W H ⌊p.px⌋ ⌊p.py⌋ = none → ¬(p.life - 1 ≤ 0) →
     waterAdjacent acc.g W H ⌊p.px⌋ ⌊p.py⌋ = true →
     ∀ tr, fireTransformationRules (acc.g ⌊p.py⌋ ⌊p.px⌋).type = some tr →
      (fireStep W H rnd acc p).outs = acc.outs ∧
      (fireStep W H rnd acc p).g ⌊p.py⌋ ⌊p.px⌋ =
        { type := if tr = ElementName.FIRE then ElementName.EMPTY
                  else tr } ∧
      (flammableNeighbors
          (setG acc.g ⌊p.py⌋ ⌊p.px⌋
            { type := if tr = ElementName.FIRE then ElementName.EMPTY
                      else tr }) W H ⌊p.px⌋ ⌊p.py⌋ ≠ [] →
       rnd acc.k < 13 / 20 →
       ∃ off ∈ flammableNeighbors
          (setG acc.g ⌊p.py⌋ ⌊p.px⌋
            { type := if tr = ElementName.FIRE then ElementName.EMPTY
                      else tr }) W H ⌊p.px⌋ ⌊p.py⌋,
        (fireStep W H rnd acc p).newSpawned = acc.newSpawned ++
          [{ id := acc.nextId
             type := ElementName.FIRE
             px := ((⌊p.px⌋ + off.2 : ℤ) : ℚ) + 1 / 2
             py := ((⌊p.py⌋ + off.1 : ℤ) : ℚ) + 1 / 2
             vx := 0
             vy := 0
             life := ((⌊rnd (acc.k + 2) * 40⌋ : ℤ) : ℚ) + 80 }] ∧
        80 ≤ ((⌊rnd (acc.k + 2) * 40⌋ : ℤ) : ℚ) + 80 ∧
        ((⌊rnd (acc.k + 2) * 40⌋ : ℤ) : ℚ) + 80 < 120)) := by
  constructor
  · intro hc hl
    simp only [fireStep, hc]
    rw [if_pos hl]
  · intro hc hl hw tr htr
    simp only [fireStep, hc, htr]
    rw [if_neg hl]
    simp only [hw, if_true]
    refine ⟨?_, ?_, ?_⟩
    · split_ifs <;> rfl
    · split_ifs <;> simp [setG_self]
    · intro hflam hrnd
      rw [if_pos hflam, if_pos hrnd]
      set flam := flammableNeighbors
        (setG acc.g ⌊p.py⌋ ⌊p.px⌋
          { type := if tr = ElementName.FIRE then ElementName.EMPTY
                    else tr }) W H ⌊p.px⌋ ⌊p.py⌋ with hfl
      have hlen : 0 < flam.length := by
        cases hfe : flam with
        | nil => exact absurd hfe hflam
        | cons a l => simp [hfe]
      have hidx : (⌊rnd (acc.k + 1) * flam.length⌋).toNat < flam.length := by
        have h0 : rnd (acc.k + 1) * flam.length < flam.length := by
          have := (hr (acc.k + 1)).2
          calc rnd (acc.k + 1) * flam.length
              < 1 * flam.length := by
                apply mul_lt_mul_of_pos_right this
                exact_mod_cast hlen
            _ = flam.length := one_mul _
        have hfloor : ⌊rnd (acc.k + 1) * flam.length⌋ < (flam.length : ℤ) := by
          exact_mod_cast Int.floor_lt.2 (by exact_mod_cast h0)
        omega
      have h80 : (0 : ℤ) ≤ ⌊rnd (acc.k + 2) * 40⌋ :=
        Int.floor_nonneg.2 (mul_nonneg (hr (acc.k + 2)).1 (by norm_num))
      have h120 : ⌊rnd (acc.k + 2) * 40⌋ < 40 :=
        Int.floor_lt.2 (by
          calc rnd (acc.k + 2) * 40 < 1 * 40 :=
                mul_lt_mul_of_pos_right (hr (acc.k + 2)).2 (by norm_num)
            _ = ((40 : ℤ) : ℚ) := by norm_num)
      refine ⟨flam.getD (⌊rnd (acc.k + 1) * flam.length⌋).toNat (0, 0),
        ?_, rfl, ?_, ?_⟩
      · rw [List.getD_eq_getElem flam (0, 0) hidx]
        exact List.getElem_mem hidx
      · exact le_add_of_nonneg_left (by exact_mod_cast h80)
      · have h40 : ((⌊rnd (acc.k + 2) * 40⌋ : ℤ) : ℚ) < 40 := by
          exact_mod_cast h120
        linarith

unseal Rat.add Rat.mul Rat.sub Rat.inv in
theorem rndHalf_range : RandRange rndHalf := fun _ =>
  ⟨by show (0 : ℚ) ≤ 1 / 2; decide, by show (1 : ℚ) / 2 < 1; decide⟩

def accF1 : FireAcc := { g := gOil1, gridChanged := false, newSpawned := [], nextId := 2, outs := [], k := 0 }

def accF2 : FireAcc := { g := gOilW, gridChanged := false, newSpawned := [], nextId := 2, outs := [], k := 0 }

unseal Rat.add Rat.mul Rat.sub Rat.inv in
/-- C10 witness: both parts of the amended theorem on 1 by 1 OIL and 2
by 1 OIL-WATER worlds: the naturally expiring particle leaves the fold
state untouched, and the water-extinguished one is dropped while its
OIL cell burns to EMPTY. -/
theorem C10_water_extinguish_burns_witness :
    fireStep 1 1 rndHalf accF1 pF1 = accF1 ∧
    (fireStep 2 1 rndHalf accF2 pF2).outs = [] ∧
    (fireStep 2 1 rndHalf accF2 pF2).g ⌊pF2.py⌋ ⌊pF2.px⌋ =
      { type := EMPTY } :=
  ⟨(C10_water_extinguish_burns 1 1 rndHalf accF1 pF1
      rndHalf_range).1 (by decide) (by decide),
   ((C10_water_extinguish_burns 2 1 rndHalf accF2 pF2
      rndHalf_range).2 (by decide) (by decide) (by decide) FIRE
      (by decide)).1,
   ((C10_water_extinguish_burns 2 1 rndHalf accF2 pF2
      rndHalf_range).2 (by decide) (by decide) (by decide) FIRE
      (by decide)).2.1⟩


/-- C9: in-bounds placement is a silent no-op on a non-EMPTY cell of the
active read buffer, a logged error leaving every buffer unchanged when
the element is missing from the registry, and on success writes the new
cell and one colour into BOTH grid and colour buffers. -/
theorem C9_placement_updates_both (els : Elements) (cv : ColorVars)
    (cellSize : ℚ) (W H : ℤ) (bufs : SceneBuffers) (active0 : Bool)
    (sel : ElementName) (nid : ℤ) (px py : ℚ) (rnd : Rand) (k : ℕ)
    (hin : ¬(⌊px / cellSize⌋ < 0 ∨ ⌊px / cellSize⌋ ≥ W ∨
      ⌊py / cellSize⌋ < 0 ∨ ⌊py / cellSize⌋ ≥ H)) :
    (((if active0 then bufs.grid0 else bufs.grid1) ⌊py / cellSize⌋
        ⌊px / cellSize⌋).type ≠ ElementName.EMPTY →
      updateAtPointer els cv cellSize W H bufs active0 sel nid px py rnd k =
        (bufs, PlaceOutcome.noopNonEmpty, none, nid, k)) ∧
    (((if active0 then bufs.grid0 else bufs.grid1) ⌊py / cellSize⌋
        ⌊px / cellSize⌋).type = ElementName.EMPTY →
      (findElem els sel = none →
        updateAtPointer els cv cellSize W H bufs active0 sel nid px py rnd k =
          (bufs, PlaceOutcome.errorUnknown, none, nid, k)) ∧
      (∀ info, findElem els sel = some info →
        (updateAtPointer els cv cellSize W H bufs active0 sel nid px py rnd
            k).1.grid0 =
          setG bufs.grid0 ⌊py / cellSize⌋ ⌊px / cellSize⌋ { type := sel } ∧
        (updateAtPointer els cv cellSize W H bufs active0 sel nid px py rnd
            k).1.grid1 =
          setG bufs.grid1 ⌊py / cellSize⌋ ⌊px / cellSize⌋ { type := sel } ∧
        (∃ c,
          (updateAtPointer els cv cellSize W H bufs active0 sel nid px py
              rnd k).1.color0 =
            setS bufs.color0 ⌊py / cellSize⌋ ⌊px / cellSize⌋ c ∧
          (updateAtPointer els cv cellSize W H bufs active0 sel nid px py
              rnd k).1.color1 =
            setS bufs.color1 ⌊py / cellSize⌋ ⌊px / cellSize⌋ c) ∧
        (updateAtPointer els cv cellSize W H bufs active0 sel nid px py rnd
            k).2.1 = PlaceOutcome.placed ∧
        (updateAtPointer els cv cellSize W H bufs active0 sel nid px py rnd
            k).2.2.1 = none ∧
        (updateAtPointer els cv cellSize W H bufs active0 sel nid px py rnd
            k).2.2.2.1 = nid)) := by
  constructor
  · intro hne
    simp only [updateAtPointer]
    rw [if_neg hin, if_pos hne]
  · intro hemp
    constructor
    · intro hf
      simp only [updateAtPointer]
      rw [if_neg hin, if_neg (by simp [hemp])]
      rw [if_neg (by simp [PARTICLE_ELEMENTS] :
        ¬(sel ∈ PARTICLE_ELEMENTS))]
      rw [hf]
    · intro info hf
      simp only [updateAtPointer]
      rw [if_neg hin, if_neg (by simp [hemp])]
      rw [if_neg (by simp [PARTICLE_ELEMENTS] :
        ¬(sel ∈ PARTICLE_ELEMENTS))]
      rw [hf]
      exact ⟨rfl, rfl, ⟨_, rfl, rfl⟩, rfl, rfl, rfl⟩

def bufsE : SceneBuffers :=
  { grid0 := fun _ _ => { type := EMPTY }
    grid1 := fun _ _ => { type := EMPTY }
    color0 := colS
    color1 := colS }

def bufsS : SceneBuffers :=
  { grid0 := fun _ _ => { type := SOIL }
    grid1 := fun _ _ => { type := EMPTY }
    color0 := colS
    color1 := colS }

unseal Rat.add Rat.mul Rat.sub Rat.inv in
/-- C9 witness: on a 1 by 1 world with cell size 1, placing SOIL on an
occupied active buffer is a no-op, placing CRYSTAL (missing from the
two-element registry) is the logged error, and placing SOIL on an EMPTY
world writes it into both grid buffers with the placed outcome. -/
theorem C9_placement_updates_both_witness :
    updateAtPointer elsS cvNone 1 1 1 bufsS true SOIL 5 (1/2) (1/2)
      rndHalf 0 = (bufsS, PlaceOutcome.noopNonEmpty, none, 5, 0) ∧
    updateAtPointer elsS cvNone 1 1 1 bufsE true CRYSTAL 5 (1/2) (1/2)
      rndHalf 0 = (bufsE, PlaceOutcome.errorUnknown, none, 5, 0) ∧
    (updateAtPointer elsS cvNone 1 1 1 bufsE true SOIL 5 (1/2) (1/2)
      rndHalf 0).1.grid0 = setG bufsE.grid0 0 0 { type := SOIL } ∧
    (updateAtPointer elsS cvNone 1 1 1 bufsE true SOIL 5 (1/2) (1/2)
      rndHalf 0).1.grid1 = setG bufsE.grid1 0 0 { type := SOIL } ∧
    (updateAtPointer elsS cvNone 1 1 1 bufsE true SOIL 5 (1/2) (1/2)
      rndHalf 0).2.1 = PlaceOutcome.placed :=
  ⟨(C9_placement_updates_both elsS cvNone 1 1 1 bufsS true SOIL 5 (1/2)
      (1/2) rndHalf 0 (by decide)).1 (by decide),
   ((C9_placement_updates_both elsS cvNone 1 1 1 bufsE true CRYSTAL 5
      (1/2) (1/2) rndHalf 0 (by decide)).2 (by decide)).1 (by decide),
   (((C9_placement_updates_both elsS cvNone 1 1 1 bufsE true SOIL 5 (1/2)
      (1/2) rndHalf 0 (by decide)).2 (by decide)).2 soilDef (by decide)).1,
   (((C9_placement_updates_both elsS cvNone 1 1 1 bufsE true SOIL 5 (1/2)
      (1/2) rndHalf 0 (by decide)).2 (by decide)).2 soilDef
      (by decide)).2.1,
   (((C9_placement_updates_both elsS cvNone 1 1 1 bufsE true SOIL 5 (1/2)
      (1/2) rndHalf 0 (by decide)).2 (by decide)).2 soilDef
      (by decide)).2.2.2.1⟩


theorem explodeCell_spawned_le (ext : Ext) (W H cx cy radius : ℤ)
    (rnd : Rand) (acc : ExplAcc) (off : ℤ × ℤ) :
    (explodeCell ext W H cx cy radius rnd acc off).spawned.length ≤
      acc.spawned.length + 1 := by
  simp only [explodeCell]
  split_ifs <;> simp

theorem explodeCell_spawned_mono (ext : Ext) (W H cx cy radius : ℤ)
    (rnd : Rand) (acc : ExplAcc) (off : ℤ × ℤ) :
    acc.spawned.length ≤
      (explodeCell ext W H cx cy radius rnd acc off).spawned.length := by
  simp only [explodeCell]
  split_ifs <;> simp

theorem explodeCell_g_off_center (ext : Ext) (W H cx cy radius : ℤ)
    (rnd : Rand) (acc : ExplAcc) (off : ℤ × ℤ)
    (hoff : off ≠ ((0 : ℤ), (0 : ℤ))) :
    (explodeCell ext W H cx cy radius rnd acc off).g cy cx =
      acc.g cy cx := by
  simp only [explodeCell]
  have hne : ¬(off.1 = 0 ∧ off.2 = 0) := by
    intro h
    exact hoff (Prod.ext h.1 h.2)
  split_ifs <;>
    first
      | rfl
      | (exact setG_other acc.g (cy + off.1) (cx + off.2) _ cy cx
          (by intro h; exact hne (by omega)))

theorem explodeCell_dead (ext : Ext) (W H cx cy radius : ℤ)
    (rnd : Rand) (acc : ExplAcc) (off : ℤ × ℤ) (hr : RandRange rnd)
    (h : 1 - ext.sqrtF ((off.2 * off.2 + off.1 * off.1 : ℤ) : ℚ) /
      (radius : ℚ) ≤ 0) :
    (explodeCell ext W H cx cy radius rnd acc off).spawned =
      acc.spawned := by
  simp only [explodeCell]
  split_ifs with h1 h2 h3 h4
  · exact absurd (lt_of_le_of_lt (hr acc.k).1 h4) (by linarith)
  · rfl
  · rfl
  · rfl
  · rfl

theorem foldl_explode_g_center (ext : Ext) (W H cx cy radius : ℤ)
    (rnd : Rand) :
    ∀ (offs : List (ℤ × ℤ)) (acc : ExplAcc),
    (∀ off ∈ offs, off ≠ ((0 : ℤ), (0 : ℤ))) →
    (offs.foldl (explodeCell ext W H cx cy radius rnd) acc).g cy cx =
      acc.g cy cx := by
  intro offs
  induction offs with
  | nil => intro acc h; rfl
  | cons off rest ih =>
      intro acc h
      simp only [List.foldl_cons]
      rw [ih _ (fun o ho => h o (by simp [ho]))]
      exact explodeCell_g_off_center ext W H cx cy radius rnd acc off
        (h off (by simp))

theorem foldl_explode_mono (ext : Ext) (W H cx cy radius : ℤ)
    (rnd : Rand) :
    ∀ (offs : List (ℤ × ℤ)) (acc : ExplAcc),
    acc.spawned.length ≤
      (offs.foldl (explodeCell ext W H cx cy radius rnd) acc).spawned.length := by
  intro offs
  induction offs with
  | nil => intro acc; exact le_refl _
  | cons off rest ih =>
      intro acc
      simp only [List.foldl_cons]
      exact le_trans (explodeCell_spawned_mono ext W H cx cy radius rnd acc
        off) (ih _)

theorem foldl_explode_le_budget (ext : Ext) (W H cx cy radius : ℤ)
    (rnd : Rand) (budget : ℤ × ℤ → ℕ) :
    ∀ (offs : List (ℤ × ℤ)) (acc : ExplAcc),
    (∀ (acc2 : ExplAcc), ∀ off ∈ offs,
      (explodeCell ext W H cx cy radius rnd acc2 off).spawned.length ≤
        acc2.spawned.length + budget off) →
    (offs.foldl (explodeCell ext W H cx cy radius rnd) acc).spawned.length ≤
      acc.spawned.length + (offs.map budget).sum := by
  intro offs
  induction offs with
  | nil => intro acc h; simp
  | cons off rest ih =>
      intro acc h
      simp only [List.foldl_cons, List.map_cons, List.sum_cons]
      have h1 := h acc off (by simp)
      have h2 := ih (explodeCell ext W H cx cy radius rnd acc off)
        (fun a o ho => h a o (by simp [ho]))
      omega


theorem explodeCell_center (ext : Ext) (W H cx cy radius : ℤ)
    (rnd : Rand) (acc : ExplAcc) (hr : RandRange rnd)
    (hs0 : ext.sqrtF 0 = 0) (hrad : 1 ≤ radius)
    (hin : 0 ≤ cx ∧ cx < W ∧ 0 ≤ cy ∧ cy < H)
    (hcell : (acc.g cy cx).type ∈ AFFECTED_BY_EXPLOSION) :
    (explodeCell ext W H cx cy radius rnd acc ((0 : ℤ), (0 : ℤ))).g cy cx =
      { type := ElementName.EMPTY } ∧
    (explodeCell ext W H cx cy radius rnd acc
      ((0 : ℤ), (0 : ℤ))).spawned.length = acc.spawned.length + 1 := by
  have hdist : ext.sqrtF ((((0 : ℤ), (0 : ℤ)).2 * ((0 : ℤ), (0 : ℤ)).2 +
      ((0 : ℤ), (0 : ℤ)).1 * ((0 : ℤ), (0 : ℤ)).1 : ℤ) : ℚ) = 0 := by
    rw [show ((((0 : ℤ), (0 : ℤ)).2 * ((0 : ℤ), (0 : ℤ)).2 +
      ((0 : ℤ), (0 : ℤ)).1 * ((0 : ℤ), (0 : ℤ)).1 : ℤ) : ℚ) = (0 : ℚ) from
      by norm_num]
    exact hs0
  have hradQ : (1 : ℚ) ≤ (radius : ℚ) := by exact_mod_cast hrad
  simp only [explodeCell, hdist]
  rw [if_pos (by simpa using hin), if_pos (by linarith),
    if_pos (by simpa using hcell),
    if_pos (by rw [zero_div]; simpa using (hr acc.k).2)]
  refine ⟨by simp only [add_zero]; exact setG_self _ _ _ _, by simp⟩


theorem createExplosion_r1 (ext : Ext) (g : Grid) (cx cy W H : ℤ)
    (sp : List Particle) (nid : ℤ) (rnd : Rand) (k : ℕ)
    (hr : RandRange rnd) (hs0 : ext.sqrtF 0 = 0)
    (hin : 0 ≤ cx ∧ cx < W ∧ 0 ≤ cy ∧ cy < H)
    (hcell : (g cy cx).type ∈ AFFECTED_BY_EXPLOSION) :
    (createExplosion ext g cx cy 1 W H sp nid rnd k).g cy cx =
      { type := ElementName.EMPTY } ∧
    sp.length + 1 ≤
      (createExplosion ext g cx cy 1 W H sp nid rnd k).spawned.length ∧
    (createExplosion ext g cx cy 1 W H sp nid rnd k).spawned.length ≤
      sp.length + 9 := by
  have hup : (createExplosion ext g cx cy 1 W H sp nid rnd k).spawned.length ≤
      sp.length + 9 := by
    have hb := foldl_explode_le_budget ext W H cx cy 1 rnd (fun _ => 1)
      (explOffsets 1) { g := g, spawned := sp, nextId := nid, k := k }
      (fun a o _ => explodeCell_spawned_le ext W H cx cy 1 rnd a o)
    rw [show ((explOffsets 1).map fun _ => (1 : ℕ)).sum = 9 from by decide]
      at hb
    exact hb
  have hsplit : createExplosion ext g cx cy 1 W H sp nid rnd k =
      List.foldl (explodeCell ext W H cx cy 1 rnd)
        (explodeCell ext W H cx cy 1 rnd
          (List.foldl (explodeCell ext W H cx cy 1 rnd)
            { g := g, spawned := sp, nextId := nid, k := k }
            [(-1, -1), (-1, 0), (-1, 1), (0, -1)])
          ((0 : ℤ), (0 : ℤ)))
        [(0, 1), (1, -1), (1, 0), (1, 1)] := rfl
  set acc0 : ExplAcc := { g := g, spawned := sp, nextId := nid, k := k }
    with hacc0
  set acc1 := List.foldl (explodeCell ext W H cx cy 1 rnd) acc0
    [(-1, -1), (-1, 0), (-1, 1), (0, -1)] with hacc1
  set acc2 := explodeCell ext W H cx cy 1 rnd acc1 ((0 : ℤ), (0 : ℤ))
    with hacc2
  have hg1 : acc1.g cy cx = g cy cx := by
    rw [hacc1]
    exact foldl_explode_g_center ext W H cx cy 1 rnd _ acc0 (by decide)
  have hc := explodeCell_center ext W H cx cy 1 rnd acc1 hr hs0
    (by norm_num) hin (by rw [hg1]; exact hcell)
  have hm1 : acc0.spawned.length ≤ acc1.spawned.length := by
    rw [hacc1]
    exact foldl_explode_mono ext W H cx cy 1 rnd _ acc0
  have hm2 := foldl_explode_mono ext W H cx cy 1 rnd
    ([(0, 1), (1, -1), (1, 0), (1, 1)] : List (ℤ × ℤ)) acc2
  have hpost : (List.foldl (explodeCell ext W H cx cy 1 rnd) acc2
      [(0, 1), (1, -1), (1, 0), (1, 1)]).g cy cx = acc2.g cy cx :=
    foldl_explode_g_center ext W H cx cy 1 rnd _ acc2 (by decide)
  have hsp0 : acc0.spawned.length = sp.length := rfl
  have h2 : acc2.spawned.length = acc1.spawned.length + 1 := hc.2
  have h1g : acc2.g cy cx = { type := ElementName.EMPTY } := hc.1
  refine ⟨?_, ?_, hup⟩
  · rw [hsplit, hpost]
    exact h1g
  · rw [hsplit]
    omega


theorem explodeCell_dead_of_ge (ext : Ext) (W H cx cy radius : ℤ)
    (rnd : Rand) (acc : ExplAcc) (off : ℤ × ℤ) (hr : RandRange rnd)
    (n : ℤ) (hn : off.2 * off.2 + off.1 * off.1 = n)
    (hs : (radius : ℚ) ≤ ext.sqrtF ((n : ℤ) : ℚ)) (hpos : 0 < radius) :
    (explodeCell ext W H cx cy radius rnd acc off).spawned =
      acc.spawned := by
  apply explodeCell_dead ext W H cx cy radius rnd acc off hr
  rw [hn]
  have hq : (0 : ℚ) < (radius : ℚ) := by exact_mod_cast hpos
  have h1 := (one_le_div hq).2 hs
  linarith

theorem createExplosion_r2 (ext : Ext) (g : Grid) (cx cy W H : ℤ)
    (sp : List Particle) (nid : ℤ) (rnd : Rand) (k : ℕ)
    (hr : RandRange rnd) (hs0 : ext.sqrtF 0 = 0)
    (hs4 : 2 ≤ ext.sqrtF 4) (hs5 : 2 ≤ ext.sqrtF 5)
    (hs8 : 2 ≤ ext.sqrtF 8)
    (hin : 0 ≤ cx ∧ cx < W ∧ 0 ≤ cy ∧ cy < H)
    (hcell : (g cy cx).type ∈ AFFECTED_BY_EXPLOSION) :
    (createExplosion ext g cx cy 2 W H sp nid rnd k).g cy cx =
      { type := ElementName.EMPTY } ∧
    sp.length + 1 ≤
      (createExplosion ext g cx cy 2 W H sp nid rnd k).spawned.length ∧
    (createExplosion ext g cx cy 2 W H sp nid rnd k).spawned.length ≤
      sp.length + 9 := by
  have hstep : ∀ (acc2 : ExplAcc), ∀ off ∈ explOffsets 2,
      (explodeCell ext W H cx cy 2 rnd acc2 off).spawned.length ≤
        acc2.spawned.length +
          (if off.1 * off.1 + off.2 * off.2 ≤ 2 then 1 else 0) := by
    intro acc2 off hoff
    have hoff2 : off ∈ ([(-2, -2), (-2, -1), (-2, 0), (-2, 1), (-2, 2),
        (-1, -2), (-1, -1), (-1, 0), (-1, 1), (-1, 2),
        (0, -2), (0, -1), (0, 0), (0, 1), (0, 2),
        (1, -2), (1, -1), (1, 0), (1, 1), (1, 2),
        (2, -2), (2, -1), (2, 0), (2, 1), (2, 2)] : List (ℤ × ℤ)) := by
      have e : explOffsets 2 = [(-2, -2), (-2, -1), (-2, 0), (-2, 1),
        (-2, 2), (-1, -2), (-1, -1), (-1, 0), (-1, 1), (-1, 2),
        (0, -2), (0, -1), (0, 0), (0, 1), (0, 2),
        (1, -2), (1, -1), (1, 0), (1, 1), (1, 2),
        (2, -2), (2, -1), (2, 0), (2, 1), (2, 2)] := by decide
      rwa [e] at hoff
    fin_cases hoff2 <;> norm_num <;>
      first
        | exact explodeCell_spawned_le ext W H cx cy 2 rnd _ _
        | (refine le_of_eq (congrArg List.length
            (explodeCell_dead_of_ge ext W H cx cy 2 rnd _ _ hr _ rfl ?_
              (by norm_num)))
           norm_num
           first
             | exact hs4
             | exact hs5
             | exact hs8)
  have hup : (createExplosion ext g cx cy 2 W H sp nid rnd
      k).spawned.length ≤ sp.length + 9 := by
    have hb := foldl_explode_le_budget ext W H cx cy 2 rnd
      (fun off => if off.1 * off.1 + off.2 * off.2 ≤ 2 then 1 else 0)
      (explOffsets 2) { g := g, spawned := sp, nextId := nid, k := k }
      (fun a o ho => hstep a o ho)
    rw [show ((explOffsets 2).map fun off =>
      if off.1 * off.1 + off.2 * off.2 ≤ 2 then 1 else 0).sum = 9 from
      by decide] at hb
    exact hb
  have hsplit : createExplosion ext g cx cy 2 W H sp nid rnd k =
      List.foldl (explodeCell ext W H cx cy 2 rnd)
        (explodeCell ext W H cx cy 2 rnd
          (List.foldl (explodeCell ext W H cx cy 2 rnd)
            { g := g, spawned := sp, nextId := nid, k := k }
            [(-2, -2), (-2, -1), (-2, 0), (-2, 1), (-2, 2),
             (-1, -2), (-1, -1), (-1, 0), (-1, 1), (-1, 2),
             (0, -2), (0, -1)])
          ((0 : ℤ), (0 : ℤ)))
        [(0, 1), (0, 2), (1, -2), (1, -1), (1, 0), (1, 1), (1, 2),
         (2, -2), (2, -1), (2, 0), (2, 1), (2, 2)] := rfl
  set acc0 : ExplAcc := { g := g, spawned := sp, nextId := nid, k := k }
    with hacc0
  set acc1 := List.foldl (explodeCell ext W H cx cy 2 rnd) acc0
    [(-2, -2), (-2, -1), (-2, 0), (-2, 1), (-2, 2),
     (-1, -2), (-1, -1), (-1, 0), (-1, 1), (-1, 2),
     (0, -2), (0, -1)] with hacc1
  set acc2 := explodeCell ext W H cx cy 2 rnd acc1 ((0 : ℤ), (0 : ℤ))
    with hacc2
  have hg1 : acc1.g cy cx = g cy cx := by
    rw [hacc1]
    exact foldl_explode_g_center ext W H cx cy 2 rnd _ acc0 (by decide)
  have hc := explodeCell_center ext W H cx cy 2 rnd acc1 hr hs0
    (by norm_num) hin (by rw [hg1]; exact hcell)
  have hm1 : acc0.spawned.length ≤ acc1.spawned.length := by
    rw [hacc1]
    exact foldl_explode_mono ext W H cx cy 2 rnd _ acc0
  have hm2 := foldl_explode_mono ext W H cx cy 2 rnd
    ([(0, 1), (0, 2), (1, -2), (1, -1), (1, 0), (1, 1), (1, 2),
      (2, -2), (2, -1), (2, 0), (2, 1), (2, 2)] : List (ℤ × ℤ)) acc2
  have hpost : (List.foldl (explodeCell ext W H cx cy 2 rnd) acc2
      [(0, 1), (0, 2), (1, -2), (1, -1), (1, 0), (1, 1), (1, 2),
       (2, -2), (2, -1), (2, 0), (2, 1), (2, 2)]).g cy cx =
      acc2.g cy cx :=
    foldl_explode_g_center ext W H cx cy 2 rnd _ acc2 (by decide)
  have hsp0 : acc0.spawned.length = sp.length := rfl
  have h2 : acc2.spawned.length = acc1.spawned.length + 1 := hc.2
  have h1g : acc2.g cy cx = { type := ElementName.EMPTY } := hc.1
  refine ⟨?_, ?_, hup⟩
  · rw [hsplit, hpost]
    exact h1g
  · rw [hsplit]
    omega


/-- C6 amended: a THUNDER particle that survives the decrement and lands
in bounds over a WATER cell dies (it is dropped from the output), the
impact cell is written EMPTY, the explosion radius is 1 or 2, and the
number of scatter particles produced is between 1 and 9: the centre
cell always scatters, and at radius 2 the cells at squared distance 4,
5 and 8 never do, because their scatter probability is not positive. -/
theorem C6_thunder_water_explosion (ext : Ext) (els : Elements)
    (W H : ℤ) (rnd : Rand) (acc : ThunderAcc) (p : Particle) (px py : ℚ)
    (hr : RandRange rnd) (hs0 : ext.sqrtF 0 = 0)
    (hs4 : 2 ≤ ext.sqrtF 4) (hs5 : 2 ≤ ext.sqrtF 5)
    (hs8 : 2 ≤ ext.sqrtF 8)
    (hT : p.type = ElementName.THUNDER) (hlife : ¬(p.life - 1 ≤ 0))
    (hpx : px = p.px + (thunderMove p (rnd acc.k)).1)
    (hpy : py = p.py + (thunderMove p (rnd acc.k)).2)
    (hin : ¬(px < 0 ∨ px ≥ (W : ℚ) ∨ py < 0 ∨ py ≥ (H : ℚ)))
    (hw : (acc.g ⌊py⌋ ⌊px⌋).type = ElementName.WATER) :
    (thunderStep ext els W H rnd acc p).outs = acc.outs ∧
    (thunderStep ext els W H rnd acc p).g ⌊py⌋ ⌊px⌋ =
      { type := ElementName.EMPTY } ∧
    acc.spawned.length + 1 ≤
      (thunderStep ext els W H rnd acc p).spawned.length ∧
    (thunderStep ext els W H rnd acc p).spawned.length ≤
      acc.spawned.length + 9 ∧
    (1 ≤ ⌊rnd (acc.k + 1) * 2⌋ + 1 ∧ ⌊rnd (acc.k + 1) * 2⌋ + 1 ≤ 2) := by
  subst hpx hpy
  push_neg at hin
  obtain ⟨h0x, hxW, h0y, hyH⟩ := hin
  have hfx0 : 0 ≤ ⌊p.px + (thunderMove p (rnd acc.k)).1⌋ :=
    Int.le_floor.2 (by exact_mod_cast h0x)
  have hfxW : ⌊p.px + (thunderMove p (rnd acc.k)).1⌋ < W :=
    Int.floor_lt.2 (by exact_mod_cast hxW)
  have hfy0 : 0 ≤ ⌊p.py + (thunderMove p (rnd acc.k)).2⌋ :=
    Int.le_floor.2 (by exact_mod_cast h0y)
  have hfyH : ⌊p.py + (thunderMove p (rnd acc.k)).2⌋ < H :=
    Int.floor_lt.2 (by exact_mod_cast hyH)
  have hrad0 : 0 ≤ ⌊rnd (acc.k + 1) * 2⌋ :=
    Int.floor_nonneg.2 (mul_nonneg (hr (acc.k + 1)).1 (by norm_num))
  have hrad1 : ⌊rnd (acc.k + 1) * 2⌋ ≤ 1 := by
    have h2 : rnd (acc.k + 1) * 2 < 2 := by
      have := (hr (acc.k + 1)).2
      linarith
    have := Int.floor_lt.2 (by exact_mod_cast h2 :
      rnd (acc.k + 1) * 2 < ((2 : ℤ) : ℚ))
    omega
  simp only [thunderStep]
  rw [if_neg (by simp [hT] : ¬(p.type ≠ ElementName.THUNDER)),
    if_neg hlife,
    if_neg (by push_neg; exact ⟨h0x, hxW, h0y, hyH⟩),
    if_pos ⟨hfx0, hfxW, hfy0, hfyH⟩, if_pos hw]
  have hcase : ⌊rnd (acc.k + 1) * 2⌋ = 0 ∨ ⌊rnd (acc.k + 1) * 2⌋ = 1 := by
    omega
  have hwmem : (acc.g ⌊p.py + (thunderMove p (rnd acc.k)).2⌋
      ⌊p.px + (thunderMove p (rnd acc.k)).1⌋).type ∈
      AFFECTED_BY_EXPLOSION := by
    rw [hw]
    decide
  rcases hcase with hc0 | hc1
  · rw [hc0]
    have he := createExplosion_r1 ext acc.g
      ⌊p.px + (thunderMove p (rnd acc.k)).1⌋
      ⌊p.py + (thunderMove p (rnd acc.k)).2⌋ W H acc.spawned acc.nextId
      rnd (acc.k + 1 + 1) hr hs0 ⟨hfx0, hfxW, hfy0, hfyH⟩ hwmem
    rw [show (0 : ℤ) + 1 = 1 from rfl]
    exact ⟨rfl, he.1, he.2.1, he.2.2, by omega, by omega⟩
  · rw [hc1]
    have he := createExplosion_r2 ext acc.g
      ⌊p.px + (thunderMove p (rnd acc.k)).1⌋
      ⌊p.py + (thunderMove p (rnd acc.k)).2⌋ W H acc.spawned acc.nextId
      rnd (acc.k + 1 + 1) hr hs0 hs4 hs5 hs8 ⟨hfx0, hfxW, hfy0, hfyH⟩
      hwmem
    rw [show (1 : ℤ) + 1 = 2 from rfl]
    exact ⟨rfl, he.1, he.2.1, he.2.2, by omega, by omega⟩


def pT : Particle :=
  { id := 1, px := 3/2, py := 1/2, vx := 0, vy := 9/10, type := THUNDER, life := 60 }

def gW3 : Grid := fun _ _ => { type := WATER }

def rnd6 : Rand := fun n => if n = 1 then 1/4 else 1/2

def accT : ThunderAcc :=
  { g := gW3, gridChanged := false, spawned := [], nextId := 2, outs := [], k := 0 }

unseal Rat.add Rat.mul Rat.sub Rat.inv in
/-- C6 counterexample: a single THUNDER particle arriving over the
central WATER cell of a 3 by 3 all-WATER world, with a random stream
that draws radius 1, dies and leaves EMPTY at the impact cell but
produces exactly ONE scatter particle, below the claimed minimum of
3: at radius 1 the four cells at distance 1 have scatter probability 0
and only the centre scatters. -/
theorem C6_single_scatter_particle :
    (handleThunderParticles extC elsS [pT] gW3 3 3 [] 2 rnd6 0).1 = [] ∧
    (handleThunderParticles extC elsS [pT] gW3 3 3 [] 2 rnd6
      0).2.2.2.1.length = 1 ∧
    ((handleThunderParticles extC elsS [pT] gW3 3 3 [] 2 rnd6 0).2.1 1
      1).type = ElementName.EMPTY := by decide

unseal Rat.add Rat.mul Rat.sub Rat.inv in
theorem rnd6_range : RandRange rnd6 := fun n => by
  simp only [rnd6]
  split_ifs <;> exact ⟨by decide, by decide⟩

unseal Rat.add Rat.mul Rat.sub Rat.inv in
/-- C6 witness: the amended theorem applied to the 3 by 3 WATER world:
the thunder dies, the impact cell is cleared and at least one scatter
particle appears. -/
theorem C6_thunder_water_explosion_witness :
    (thunderStep extC elsS 3 3 rnd6 accT pT).outs = accT.outs ∧
    (thunderStep extC elsS 3 3 rnd6 accT pT).g ⌊(3 / 2 : ℚ)⌋
      ⌊(3 / 2 : ℚ)⌋ = { type := ElementName.EMPTY } ∧
    accT.spawned.length + 1 ≤
      (thunderStep extC elsS 3 3 rnd6 accT pT).spawned.length ∧
    (thunderStep extC elsS 3 3 rnd6 accT pT).spawned.length ≤
      accT.spawned.length + 9 :=
  ⟨(C6_thunder_water_explosion extC elsS 3 3 rnd6 accT pT (3 / 2) (3 / 2)
      rnd6_range (by decide) (by decide) (by decide) (by decide)
      (by decide) (by decide) (by decide) (by decide) (by decide)
      (by decide)).1,
   (C6_thunder_water_explosion extC elsS 3 3 rnd6 accT pT (3 / 2) (3 / 2)
      rnd6_range (by decide) (by decide) (by decide) (by decide)
      (by decide) (by decide) (by decide) (by decide) (by decide)
      (by decide)).2.1,
   (C6_thunder_water_explosion extC elsS 3 3 rnd6 accT pT (3 / 2) (3 / 2)
      rnd6_range (by decide) (by decide) (by decide) (by decide)
      (by decide) (by decide) (by decide) (by decide) (by decide)
      (by decide)).2.2.1,
   (C6_thunder_water_explosion extC elsS 3 3 rnd6 accT pT (3 / 2) (3 / 2)
      rnd6_range (by decide) (by decide) (by decide) (by decide)
      (by decide) (by decide) (by decide) (by decide) (by decide)
      (by decide)).2.2.2.1⟩

end Terraspiel
